import Mathlib

/-!
# BasicGallery: a touch-driven slide carousel

A shallow embedding of `src/index.js` (class `BasicGallery`).

* JavaScript numbers are exact rationals extended with `NaN` and the two
  infinities (`JSNum`); signed zeros are not distinguished (the only divisor
  that can be zero is the measured width, which is `+0`).  Slide indices are
  integers.
* The `startSlide` option is a number of integer value.  It passes through
  `parseInt`, which reads the decimal form of the number, so that form is part
  of the embedding: an integer stands for the double its literal denotes, and
  from `10^21` on the decimal form is in exponent notation.
* The DOM is reduced to what the class reads and writes: the ordered children
  of the container with the inline style properties the class sets, and the
  measured width of the container.
* `setTimeout`/`clearTimeout` are a list of pending timers in the state; a
  timer handle is a positive integer, as in browsers.
* The embedding covers galleries with at least one slide; with zero slides
  `wrapIndex` is `NaN` in JavaScript, which an integer index cannot hold.
-/

/-- A JavaScript number: `NaN`, an infinity, or a finite value. -/
inductive JSNum where
  | nan : JSNum
  | negInf : JSNum
  | fin (q : ℚ) : JSNum
  | posInf : JSNum
  deriving DecidableEq

namespace JSNum

/-- JavaScript `a + b`. -/
def add : JSNum → JSNum → JSNum
  | nan, _ => nan
  | _, nan => nan
  | fin a, fin b => fin (a + b)
  | posInf, negInf => nan
  | negInf, posInf => nan
  | posInf, _ => posInf
  | _, posInf => posInf
  | negInf, _ => negInf
  | _, negInf => negInf

/-- JavaScript unary minus. -/
def neg : JSNum → JSNum
  | nan => nan
  | negInf => posInf
  | fin a => fin (-a)
  | posInf => negInf

/-- JavaScript `Math.abs`. -/
def abs : JSNum → JSNum
  | nan => nan
  | negInf => posInf
  | fin a => fin |a|
  | posInf => posInf

/-- JavaScript `a / b`; a zero divisor is `+0`. -/
def div : JSNum → JSNum → JSNum
  | nan, _ => nan
  | _, nan => nan
  | fin a, fin b =>
      if b = 0 then (if a = 0 then nan else if 0 < a then posInf else negInf)
      else fin (a / b)
  | fin _, posInf => fin 0
  | fin _, negInf => fin 0
  | posInf, fin b => if 0 ≤ b then posInf else negInf
  | negInf, fin b => if 0 ≤ b then negInf else posInf
  | posInf, posInf => nan
  | posInf, negInf => nan
  | negInf, posInf => nan
  | negInf, negInf => nan

/-- JavaScript `a < b` (false as soon as one side is `NaN`). -/
def lt : JSNum → JSNum → Bool
  | nan, _ => false
  | _, nan => false
  | fin a, fin b => decide (a < b)
  | negInf, negInf => false
  | negInf, _ => true
  | _, negInf => false
  | posInf, _ => false
  | fin _, posInf => true

/-- JavaScript `a > b`. -/
def gt (a b : JSNum) : Bool := lt b a

/-- Reading a possibly `undefined` number in an arithmetic position. -/
def ofOption : Option ℚ → JSNum
  | none => nan
  | some q => fin q

end JSNum

/-- The number of digits of `n` in base `b`. -/
def digitCount (b n : Nat) : Nat := (Nat.toDigits b n).length

/-- The Number that a natural number denotes: the nearest double, a tie going
to the even significand of 53 bits; `none` is `Infinity`. -/
def toDouble (n : Nat) : Option Nat :=
  if n < 2 ^ 53 then some n
  else
    let e := digitCount 2 n - 53
    let q := n / 2 ^ e
    let r := n % 2 ^ e
    let q1 := if 2 ^ e < 2 * r ∨ (2 * r = 2 ^ e ∧ q % 2 = 1) then q + 1 else q
    if digitCount 2 q1 + e ≤ 1024 then some (q1 * 2 ^ e) else none

/-- The decimal forms `s * 10^p` of the double `x` with `s` of `k` digits:
those that denote `x`. -/
def decimalCandidates (x k : Nat) : List (Nat × Nat) :=
  let p := digitCount 10 x - k
  [(x / 10 ^ p, p), (x / 10 ^ p + 1, p), (x / 10 ^ (p + 1) + 1, p + 1)].filter
    (fun c => decide (10 ^ (k - 1) ≤ c.1) && decide (c.1 < 10 ^ k) &&
      decide (toDouble (c.1 * 10 ^ c.2) = some x))

/-- The distance of the decimal form `c` from `x`. -/
def decimalDistance (x : Nat) (c : Nat × Nat) : Nat :=
  (c.1 * 10 ^ c.2 - x) + (x - c.1 * 10 ^ c.2)

/-- The decimal form closest to `x`, the even one of two equally close. -/
def closestDecimal (x : Nat) : List (Nat × Nat) → Option (Nat × Nat)
  | [] => none
  | c :: cs =>
    match closestDecimal x cs with
    | none => some c
    | some c1 =>
      if decimalDistance x c < decimalDistance x c1 ∨
          (decimalDistance x c = decimalDistance x c1 ∧ c.1 % 2 = 0)
      then some c else some c1

/-- The digits of `Number.prototype.toString` for a double `x` of integer
value: the fewest digits `k` with a decimal form `s * 10^p` that denotes `x`,
as `(k, s, p)`; 17 digits are always enough. -/
def shortestDecimal (x : Nat) : Option (Nat × Nat × Nat) :=
  (List.range 17).findSome? (fun i =>
    (closestDecimal x (decimalCandidates x (i + 1))).map (fun c => (i + 1, c.1, c.2)))

/-- The first digit of the decimal form of `x`: in exponent notation
(`1.1805916207174113e+21`) the only digit before the point. -/
def leadingDigit (x : Nat) : Nat :=
  match shortestDecimal x with
  | some (k, s, _) => s / 10 ^ (k - 1)
  | none => x / 10 ^ (digitCount 10 x - 1)

/-- The global `parseInt(n, 10)` for a number `n` of integer value; `none` is
`NaN`.  `parseInt` reads the string form of its argument up to the first
character that is not a digit: below `10^21` the string is the plain decimal
form and the result is the number itself; from `10^21` on it is in exponent
notation and the result is the sign with the digit before the point
(`parseInt(1e21, 10)` is `1`); `Infinity` has no digit. -/
def parseInt (n : Int) : Option Int :=
  match toDouble n.natAbs with
  | none => none
  | some x => if x < 10 ^ 21 then some (n.sign * x) else some (n.sign * leadingDigit x)

/-- A JavaScript array of numbers, as `slidePos` is used: `elems` are the
entries at indices `0 .. length-1` (`none` is a hole, read as `undefined`),
`props` the properties named by the negative integers `-1, -2, ...`, which
an assignment `a[-1] = v` creates without touching `length`. -/
structure JSArray where
  elems : List (Option ℚ)
  props : List (Option ℚ)
  deriving DecidableEq

namespace JSArray

/-- Assignment at position `n` of a list of optional entries, growing the list
with holes when `n` is beyond its end. -/
def setExt (l : List (Option ℚ)) (n : Nat) (v : ℚ) : List (Option ℚ) :=
  if n < l.length then l.set n (some v)
  else l ++ List.replicate (n - l.length) none ++ [some v]

/-- The array `new Array(n)`: `n` holes. -/
def mk_holes (n : Nat) : JSArray := ⟨List.replicate n none, []⟩

/-- The `length` property. -/
def length (a : JSArray) : Nat := a.elems.length

/-- Read `a[i]`; `none` is `undefined`. -/
def get (a : JSArray) : Int → Option ℚ
  | Int.ofNat n => a.elems.getD n none
  | Int.negSucc n => a.props.getD n none

/-- Write `a[i] = v`. -/
def set (a : JSArray) (i : Int) (v : ℚ) : JSArray :=
  match i with
  | Int.ofNat n => { a with elems := setExt a.elems n v }
  | Int.negSucc n => { a with props := setExt a.props n v }

end JSArray

/-- A slide element: its content and the attributes and inline style
properties that the gallery sets on it. `cloneNode(true)` copies all of
them, so a deep clone is an equal record. -/
structure Slide where
  content : Nat
  dataIndex : Option Nat
  styleWidth : Option ℚ
  transitionDuration : Option Int
  left : Option JSNum
  deriving DecidableEq

/-- The container element: its children (a live collection), its measured
width (`getBoundingClientRect().width`, `offsetWidth`) and its visibility. -/
structure Container where
  children : List Slide
  rectWidth : ℚ
  offsetWidth : ℚ
  visible : Bool
  deriving DecidableEq

/-- The constructor options. -/
structure Options where
  startSlide : Option Int
  continuous : Option Bool
  speed : Option Int
  deriving DecidableEq

/-- Values of the enum `Direction`. -/
inductive Direction where
  | FORWARD | BACKWARD | LEFT | RIGHT | UP | DOWN
  deriving DecidableEq

/-- A touch point. -/
structure Touch where
  pageX : ℚ
  pageY : ℚ
  deriving DecidableEq

/-- A touch event: `touches[0]`, the remaining touches and `scale`
(`none` is `undefined`). Browsers deliver `touchstart` and `touchmove`
with at least one touch. -/
structure TouchEvent where
  touch0 : Touch
  others : List Touch
  scale : Option ℚ
  deriving DecidableEq

/-- The record `touchStartData`. -/
structure TouchStart where
  x : ℚ
  y : ℚ
  time : Int
  deriving DecidableEq

/-- The record `touchDelta`; `{}` has both fields `undefined`, which every
use reads as `NaN`. -/
structure TouchDelta where
  x : JSNum
  y : JSNum
  deriving DecidableEq

/-- What a pending timer runs. -/
inductive Callback where
  | slide (destinationIndex : Int) (slideSpeed : Option Int) (ignoreWrap : Bool)
  | slideChanged
  | resetSlide (index : Int) (offset : ℚ)
  | afterTouchend
  | initializeGallery
  deriving DecidableEq

/-- A pending `setTimeout`. -/
structure Timer where
  handle : Int
  delay : Int
  callback : Callback
  deriving DecidableEq

/-- The state of a `BasicGallery` instance together with the part of the
environment it acts on (container, pending timers, calls of the
`slideChanged` hook). -/
structure BasicGallery where
  container : Container
  continuous : Bool
  startSlide : Int
  index : Int
  speed : Int
  length : Nat
  slidePos : JSArray
  width : ℚ
  resizeTimeout : Int
  resetSlideTimeout : Option Int
  boundResetSlide : Option (Int × ℚ)
  validTouchEvent : Bool
  touchStartData : Option TouchStart
  isScrolling : Option Bool
  touchDelta : TouchDelta
  timers : List Timer
  nextHandle : Nat
  slideChangedCalls : Nat
  deriving DecidableEq

namespace BasicGallery

/-- The live collection `this.slides`. -/
def slides (g : BasicGallery) : List Slide := g.container.children

/-- `setTimeout(callback, delay)`: returns the new state and the handle. -/
def setTimeout (g : BasicGallery) (cb : Callback) (delay : Int) : BasicGallery × Int :=
  ({ g with timers := g.timers ++ [⟨(g.nextHandle : Int) + 1, delay, cb⟩],
            nextHandle := g.nextHandle + 1 }, (g.nextHandle : Int) + 1)

/-- `clearTimeout(handle)`. -/
def clearTimeout (g : BasicGallery) (h : Int) : BasicGallery :=
  { g with timers := g.timers.filter (fun t => decide (t.handle ≠ h)) }

/-- `wrapIndex(index)`: `(n + (index % n)) % n` with `n = slides.length` and
JavaScript's truncated remainder. -/
def wrapIndex (g : BasicGallery) (index : Int) : Int :=
  (((g.slides.length : Int) + (index.tmod g.slides.length)).tmod g.slides.length)

/-- `translate(index, distance, speed)`. -/
def translate (g : BasicGallery) (index : Int) (distance : JSNum) (speed : Int) :
    BasicGallery :=
  match index with
  | Int.ofNat n =>
    match g.slides[n]? with
    | none => g
    | some slide =>
      { g with container := { g.container with
          children := g.slides.set n
            { slide with transitionDuration := some speed, left := some distance } } }
  | Int.negSucc _ => g

/-- `moveSlideAtIndex(index, distance, speed)`. -/
def moveSlideAtIndex (g : BasicGallery) (index : Int) (distance : ℚ) (speed : Int) :
    BasicGallery :=
  let g1 := g.translate index (JSNum.fin distance) speed
  { g1 with slidePos := g1.slidePos.set index distance }

/-- The test `this.resetSlideTimeout > 0` (false for `undefined`). -/
def resetPending (g : BasicGallery) : Bool :=
  match g.resetSlideTimeout with
  | some h => decide (0 < h)
  | none => false

/-- `resetSlide(index, offset, delay)`; `delay = none` is `undefined`. -/
def resetSlide (g : BasicGallery) (index : Int) (offset : ℚ) (delay : Option Int) :
    BasicGallery :=
  let canSchedule : Bool :=
    match delay, g.resetSlideTimeout with
    | some d, some h => decide (0 < d) && decide (h < 0)
    | _, _ => false
  if canSchedule then
    let g1 := { g with boundResetSlide := some (index, offset) }
    let r := g1.setTimeout (Callback.resetSlide index offset) (delay.getD 0)
    { r.1 with resetSlideTimeout := some r.2 }
  else
    let g1 := if g.resetPending then g.clearTimeout (g.resetSlideTimeout.getD 0) else g
    let g2 := { g1 with resetSlideTimeout := some (-1), boundResetSlide := none }
    g2.moveSlideAtIndex index offset 0

/-- The stacking loop of `initialize`: `while (pos--) { ... }`, `pos` being
the number of slides still to place. -/
def stackLoop (g : BasicGallery) : Nat → BasicGallery
  | 0 => g
  | pos + 1 =>
    let g1 : BasicGallery :=
      match g.slides[pos]? with
      | none => g
      | some slide =>
        { g with container := { g.container with
            children := g.slides.set pos
              { slide with styleWidth := some g.width, dataIndex := some pos } } }
    let g2 := g1.moveSlideAtIndex pos
      (if g1.index > pos then -g1.width else (if g1.index < pos then g1.width else 0)) 0
    stackLoop g2 pos

/-- The measured width: `getBoundingClientRect().width || offsetWidth`. -/
def measuredWidth (g : BasicGallery) : ℚ :=
  if g.container.rectWidth ≠ 0 then g.container.rectWidth else g.container.offsetWidth

/-- The method `initialize()`. -/
def initializeGallery (g : BasicGallery) : BasicGallery :=
  let g1 := { g with resizeTimeout := -1, width := g.measuredWidth }
  let g2 := g1.stackLoop g1.slides.length
  if g2.continuous then
    let g3 := g2.moveSlideAtIndex (g2.wrapIndex (g2.index - 1)) (-g2.width) 0
    g3.moveSlideAtIndex (g3.wrapIndex (g3.index + 1)) g3.width 0
  else g2

/-- The constructor, for a container that is present (without one the
constructor returns at once and the instance is inert). -/
def construct (container : Container) (options : Option Options) : BasicGallery :=
  let opts : Options := options.getD ⟨none, none, none⟩
  let startSlide : Int := opts.startSlide.getD 0
  let index : Int := (parseInt startSlide).getD 0
  let speed : Int := match opts.speed with
    | some v => if v = 0 then 300 else v
    | none => 300
  let continuous0 : Bool := match opts.continuous with
    | some b => b
    | none => true
  let length := container.children.length
  let continuous1 : Bool := if container.children.length < 2 then false else continuous0
  let container1 : Container :=
    if continuous1 && decide (container.children.length < 3) then
      match container.children[0]? with
      | none => container
      | some first =>
        let c1 := { container with children := container.children ++ [first] }
        match c1.children[1]? with
        | none => c1
        | some second => { c1 with children := c1.children ++ [second] }
    else container
  let g0 : BasicGallery :=
    { container := container1, continuous := continuous1, startSlide := startSlide,
      index := index, speed := speed, length := length,
      slidePos := JSArray.mk_holes container1.children.length, width := 0,
      resizeTimeout := -1, resetSlideTimeout := none, boundResetSlide := none,
      validTouchEvent := false, touchStartData := none, isScrolling := none,
      touchDelta := ⟨JSNum.nan, JSNum.nan⟩, timers := [], nextHandle := 0,
      slideChangedCalls := 0 }
  let g1 := g0.initializeGallery
  { g1 with container := { g1.container with visible := true } }

/-- The seeding loop of `slide`: `while (diff--) { ... }` with
`top = max(destinationIndex, index)`. -/
def seedLoop (g : BasicGallery) (top : Int) (distance : ℚ) : Nat → BasicGallery
  | 0 => g
  | diff + 1 =>
    seedLoop (g.moveSlideAtIndex (g.wrapIndex (top - (diff : Int) - 1)) distance 0)
      top distance diff

/-- The last part of `slide`, from `var diff = ...` to the end: seed the
slides in between, move the old and the new current slide, schedule the
reset in continuous mode, store the index and schedule the notification.
`diff` is never negative here (the destination differs from the index), so
the loop `while (diff--)` runs `diff` times. -/
def slideFinish (g : BasicGallery) (dest : Int) (directionFactor : Int) (speed : Int) :
    BasicGallery :=
  let diff : Nat := (g.index - dest).natAbs - 1
  let g4 := g.seedLoop (if dest > g.index then dest else g.index)
    (g.width * directionFactor) diff
  let dest1 := g4.wrapIndex dest
  let g5 := g4.moveSlideAtIndex g4.index (g4.width * directionFactor) speed
  let g6 := g5.moveSlideAtIndex dest1 0 speed
  let g7 : BasicGallery :=
    if g6.continuous then
      ({ g6 with resetSlideTimeout := some (-1) }).resetSlide
        (g6.wrapIndex (dest1 - directionFactor)) (-g6.width * directionFactor) (some speed)
    else g6
  let g8 := { g7 with index := dest1 }
  (g8.setTimeout Callback.slideChanged 10).1

/-- The speed used by `slide`:
`slideSpeed !== undefined && slideSpeed >= 0 ? slideSpeed : this.speed`. -/
def effectiveSpeed (g : BasicGallery) (slideSpeed : Option Int) : Int :=
  match slideSpeed with
  | some v => if 0 ≤ v then v else g.speed
  | none => g.speed

/-- The method `slide(destinationIndex, slideSpeed, ignoreWrap)`; `ignoreWrap`
is `true` exactly when the argument is `=== true`. A `TypeError` (calling an
`undefined` `boundResetSlide`) aborts the call with the state as it is. -/
def slide (g : BasicGallery) (destinationIndex : Int) (slideSpeed : Option Int)
    (ignoreWrap : Bool) : BasicGallery :=
  if g.index = destinationIndex then g
  else if g.resetPending && g.boundResetSlide.isNone then g
  else
    let g1 : BasicGallery :=
      match g.resetPending, g.boundResetSlide with
      | true, some b => g.resetSlide b.1 b.2 none
      | _, _ => g
    let needsDelay1 : Bool := g.resetPending
    let prePosition : Bool :=
      g1.continuous && ignoreWrap &&
        ((decide (destinationIndex = 0) &&
            JSNum.gt (JSNum.ofOption (g1.slidePos.get 0)) (JSNum.fin 0)) ||
         (decide (destinationIndex = (g1.slides.length : Int) - 1) &&
            JSNum.lt (JSNum.ofOption (g1.slidePos.get destinationIndex)) (JSNum.fin 0)))
    let g2 : BasicGallery :=
      if prePosition then
        g1.moveSlideAtIndex destinationIndex
          ((if destinationIndex = 0 then -1 else 1) * g1.width) 0
      else g1
    if needsDelay1 || prePosition then
      (g2.setTimeout (Callback.slide destinationIndex slideSpeed ignoreWrap) 10).1
    else
      let speed : Int := g2.effectiveSpeed slideSpeed
      let natural_direction : Direction :=
        if JSNum.lt (JSNum.div (JSNum.fin |((g2.index - destinationIndex : Int) : ℚ)|)
              (JSNum.fin ((g2.index - destinationIndex : Int) : ℚ))) (JSNum.fin 0)
        then Direction.FORWARD else Direction.BACKWARD
      let wrapAware : Bool := g2.continuous && !ignoreWrap
      let direction : Direction :=
        if wrapAware then
          (if JSNum.lt (JSNum.div
                (JSNum.neg (JSNum.ofOption (g2.slidePos.get (g2.wrapIndex destinationIndex))))
                (JSNum.fin g2.width)) (JSNum.fin 0)
           then Direction.FORWARD else Direction.BACKWARD)
        else natural_direction
      let directionFactor : Int := if direction = Direction.FORWARD then -1 else 1
      let dest : Int :=
        if wrapAware && decide (direction ≠ natural_direction) then
          directionFactor * (g2.slides.length : Int) + destinationIndex
        else destinationIndex
      let g3 : BasicGallery :=
        if !wrapAware && g2.continuous then
          (if decide (dest = 0) &&
              JSNum.gt (JSNum.ofOption (g2.slidePos.get dest)) (JSNum.fin 0) then
            g2.moveSlideAtIndex dest (-g2.width) 0
          else if decide (dest = (g2.slides.length : Int) - 1) &&
              JSNum.lt (JSNum.ofOption (g2.slidePos.get dest)) (JSNum.fin 0) then
            g2.moveSlideAtIndex dest g2.width 0
          else g2)
        else g2
      g3.slideFinish dest directionFactor speed

/-- The method `prev()`. -/
def prev (g : BasicGallery) : BasicGallery :=
  if g.continuous || decide (g.index > 0) then g.slide (g.index - 1) none false else g

/-- The method `next()`. -/
def next (g : BasicGallery) : BasicGallery :=
  if g.continuous || decide (g.index < (g.slides.length : Int) - 1) then
    g.slide (g.index + 1) none false
  else g

/-- The hook `slideChanged()`: empty in the class; its calls are counted. -/
def slideChanged (g : BasicGallery) : BasicGallery :=
  { g with slideChangedCalls := g.slideChangedCalls + 1 }

/-- The handler `touchstart(event)`; `now` is the value of `+new Date`. -/
def touchstart (g : BasicGallery) (event : TouchEvent) (now : Int) : BasicGallery :=
  let g1 := { g with
    validTouchEvent := true,
    touchStartData := some ⟨event.touch0.pageX, event.touch0.pageY, now⟩,
    isScrolling := none,
    touchDelta := ⟨JSNum.nan, JSNum.nan⟩ }
  match g1.resetPending, g1.boundResetSlide with
  | true, some b => g1.resetSlide b.1 b.2 none
  | _, _ => g1

/-- The new value of `touchDelta.x` in the non-continuous branch of
`touchmove`: `x / (atBoundary ? Math.abs(x) / width + 1 : 1)`. -/
def resistedDelta (g : BasicGallery) (x : JSNum) : JSNum :=
  JSNum.div x
    (if (decide (g.index = 0) && JSNum.gt x (JSNum.fin 0)) ||
        (decide (g.index = (g.slides.length : Int) - 1) && JSNum.lt x (JSNum.fin 0))
     then JSNum.add (JSNum.div (JSNum.abs x) (JSNum.fin g.width)) (JSNum.fin 1)
     else JSNum.fin 1)

/-- The test `event.touches.length > 1 || event.scale && event.scale !== 1`
of `touchmove`: more than one touch, or a scale that is neither falsy nor 1. -/
def notOneFinger (event : TouchEvent) : Bool :=
  decide (event.others.length + 1 > 1) ||
    (match event.scale with
     | some sc => decide (sc ≠ 0) && decide (sc ≠ 1)
     | none => false)

/-- The handler `touchmove(event)`. `event.preventDefault()` acts on the
event only. Reading `touchStartData` while it is `undefined` throws before
anything is written. -/
def touchmove (g : BasicGallery) (event : TouchEvent) : BasicGallery :=
  if !g.validTouchEvent then g
  else if notOneFinger event then g
  else
    match g.touchStartData with
    | none => g
    | some start =>
      let g1 := { g with touchDelta :=
        ⟨JSNum.fin (event.touch0.pageX - start.x), JSNum.fin (event.touch0.pageY - start.y)⟩ }
      let g2 : BasicGallery :=
        match g1.isScrolling with
        | none =>
          let scrolling := JSNum.lt (JSNum.abs g1.touchDelta.x) (JSNum.abs g1.touchDelta.y)
          { g1 with isScrolling := some scrolling }
        | some _ => g1
      if g2.isScrolling = some true then g2
      else if g2.continuous then
        let g3 := g2.translate (g2.wrapIndex (g2.index - 1))
          (JSNum.add g2.touchDelta.x
            (JSNum.ofOption (g2.slidePos.get (g2.wrapIndex (g2.index - 1))))) 0
        let g4 := g3.translate g3.index
          (JSNum.add g3.touchDelta.x (JSNum.ofOption (g3.slidePos.get g3.index))) 0
        g4.translate (g4.wrapIndex (g4.index + 1))
          (JSNum.add g4.touchDelta.x
            (JSNum.ofOption (g4.slidePos.get (g4.wrapIndex (g4.index + 1))))) 0
      else
        let g3 := { g2 with touchDelta := { g2.touchDelta with
          x := g2.resistedDelta g2.touchDelta.x } }
        let g4 := g3.translate (g3.index - 1)
          (JSNum.add g3.touchDelta.x (JSNum.ofOption (g3.slidePos.get (g3.index - 1)))) 0
        let g5 := g4.translate g4.index
          (JSNum.add g4.touchDelta.x (JSNum.ofOption (g4.slidePos.get g4.index))) 0
        g5.translate (g5.index + 1)
          (JSNum.add g5.touchDelta.x (JSNum.ofOption (g5.slidePos.get (g5.index + 1)))) 0

/-- The handler `touchend(evt)`. -/
def touchend (g : BasicGallery) : BasicGallery :=
  if !g.validTouchEvent then g
  else (({ g with validTouchEvent := false }).setTimeout Callback.afterTouchend 10).1

/-- The test `isValidSlide` of `afterTouchend`. -/
def isValidSlide (g : BasicGallery) (duration : Int) : Bool :=
  (decide (duration < 250) && JSNum.gt (JSNum.abs g.touchDelta.x) (JSNum.fin 20)) ||
    JSNum.gt (JSNum.abs g.touchDelta.x) (JSNum.div (JSNum.fin g.width) (JSNum.fin 2))

/-- The test `isPastBounds` of `afterTouchend`, after the override for
continuous mode. -/
def isPastBounds (g : BasicGallery) : Bool :=
  if g.continuous then false
  else (decide (g.index = 0) && JSNum.gt g.touchDelta.x (JSNum.fin 0)) ||
    (decide (g.index = (g.slides.length : Int) - 1) && JSNum.lt g.touchDelta.x (JSNum.fin 0))

/-- The callback `afterTouchend(evt)`; `now` is the value of `+new Date`.
Reading `touchStartData` while it is `undefined` throws before anything is
written. -/
def afterTouchend (g : BasicGallery) (now : Int) : BasicGallery :=
  match g.touchStartData with
  | none => g
  | some start =>
    let duration : Int := now - start.time
    let valid := g.isValidSlide duration
    let pastBounds := g.isPastBounds
    let direction : Direction :=
      if JSNum.lt g.touchDelta.x (JSNum.fin 0) then Direction.RIGHT else Direction.LEFT
    if g.isScrolling = some true then g
    else
      let g1 : BasicGallery :=
        if valid && !pastBounds then
          (if direction = Direction.RIGHT then { g with index := g.wrapIndex (g.index + 1) }
           else { g with index := g.wrapIndex (g.index - 1) })
        else g
      let g2 := g1.moveSlideAtIndex g1.index 0 g1.speed
      let g3 : BasicGallery :=
        if g2.continuous then
          let h1 := g2.moveSlideAtIndex (g2.wrapIndex (g2.index - 1)) (-g2.width)
            (if direction = Direction.RIGHT then g2.speed else 0)
          h1.moveSlideAtIndex (h1.wrapIndex (h1.index + 1)) h1.width
            (if direction = Direction.LEFT then h1.speed else 0)
        else if direction = Direction.RIGHT then
          let h1 := g2.moveSlideAtIndex (g2.index - 1) (-g2.width) g2.speed
          if h1.index < (h1.slides.length : Int) - 1 then
            h1.moveSlideAtIndex (h1.index + 1) h1.width 0
          else h1
        else
          let h1 : BasicGallery :=
            if g2.index > 0 then g2.moveSlideAtIndex (g2.index - 1) (-g2.width) 0 else g2
          h1.moveSlideAtIndex (h1.index + 1) h1.width h1.speed
      g3.slideChanged

/-- The handler `resize(evt)`. -/
def resize (g : BasicGallery) : BasicGallery :=
  if g.resizeTimeout < 0 then
    let r := g.setTimeout Callback.initializeGallery 100
    { r.1 with resizeTimeout := r.2 }
  else g

/-- Running a callback that a timer holds; `now` is the clock at that time. -/
def runCallback (g : BasicGallery) (now : Int) : Callback → BasicGallery
  | Callback.slide d sp iw => g.slide d sp iw
  | Callback.slideChanged => g.slideChanged
  | Callback.resetSlide i off => g.resetSlide i off none
  | Callback.afterTouchend => g.afterTouchend now
  | Callback.initializeGallery => g.initializeGallery

/-- The timer with handle `h` expires: it leaves the pending list and its
callback runs. Nothing happens when no such timer is pending. -/
def fireTimer (g : BasicGallery) (h : Int) (now : Int) : BasicGallery :=
  match g.timers.find? (fun t => decide (t.handle = h)) with
  | none => g
  | some t => (g.clearTimeout h).runCallback now t.callback

/-- The operations on a constructed gallery: method calls, events, and
timer expiry. -/
inductive Op where
  | initializeGallery
  | prev
  | next
  | slide (destinationIndex : Int) (slideSpeed : Option Int) (ignoreWrap : Bool)
  | resetSlide (index : Int) (offset : ℚ) (delay : Option Int)
  | moveSlideAtIndex (index : Int) (distance : ℚ) (speed : Int)
  | translate (index : Int) (distance : JSNum) (speed : Int)
  | slideChanged
  | touchstart (event : TouchEvent) (now : Int)
  | touchmove (event : TouchEvent)
  | touchend
  | afterTouchend (now : Int)
  | resize
  | fireTimer (handle : Int) (now : Int)

/-- The effect of one operation. -/
def step (g : BasicGallery) : Op → BasicGallery
  | Op.initializeGallery => g.initializeGallery
  | Op.prev => g.prev
  | Op.next => g.next
  | Op.slide d sp iw => g.slide d sp iw
  | Op.resetSlide i off delay => g.resetSlide i off delay
  | Op.moveSlideAtIndex i d sp => g.moveSlideAtIndex i d sp
  | Op.translate i d sp => g.translate i d sp
  | Op.slideChanged => g.slideChanged
  | Op.touchstart ev now => g.touchstart ev now
  | Op.touchmove ev => g.touchmove ev
  | Op.touchend => g.touchend
  | Op.afterTouchend now => g.afterTouchend now
  | Op.resize => g.resize
  | Op.fireTimer h now => g.fireTimer h now

end BasicGallery

/-! ## Sample states and specification predicates -/

namespace BasicGallery

/-- A slide as the page delivers it: content only, no inline style yet. -/
def freshSlide (content : Nat) : Slide := ⟨content, none, none, none, none⟩

/-- A gallery state with the given slides, mode, index, width and offsets,
at rest: no timer pending, no touch session. -/
def atRest (children : List Slide) (continuous : Bool) (index : Int) (width : ℚ)
    (offsets : List (Option ℚ)) : BasicGallery :=
  { container := ⟨children, width, width, true⟩, continuous := continuous,
    startSlide := 0, index := index, speed := 300, length := children.length,
    slidePos := ⟨offsets, []⟩, width := width, resizeTimeout := -1,
    resetSlideTimeout := none, boundResetSlide := none, validTouchEvent := false,
    touchStartData := none, isScrolling := none,
    touchDelta := ⟨JSNum.nan, JSNum.nan⟩, timers := [], nextHandle := 0,
    slideChangedCalls := 0 }

/-- The end-to-end scenario of the specification: four slides, continuous,
width 300, index 0, offsets as `initialize` leaves them. -/
def scenario4 : BasicGallery :=
  atRest [freshSlide 0, freshSlide 1, freshSlide 2, freshSlide 3] true 0 300
    [some 0, some 300, some 300, some (-300)]

/-- The offset that the stacking loop of `initialize` gives slide `pos`. -/
def bucket (index : Int) (w : ℚ) (pos : Nat) : ℚ :=
  if index > pos then -w else (if index < pos then w else 0)

/-- The fields that `translate` and `moveSlideAtIndex` leave alone: `g1`
differs from `g` at most in the slides' styles, `slidePos`, and the touch
session. -/
structure SameButLayout (g g1 : BasicGallery) : Prop where
  len : g1.slides.length = g.slides.length
  continuous : g1.continuous = g.continuous
  index : g1.index = g.index
  width : g1.width = g.width
  speed : g1.speed = g.speed
  resetSlideTimeout : g1.resetSlideTimeout = g.resetSlideTimeout
  boundResetSlide : g1.boundResetSlide = g.boundResetSlide
  timers : g1.timers = g.timers
  nextHandle : g1.nextHandle = g.nextHandle
  slideChangedCalls : g1.slideChangedCalls = g.slideChangedCalls
  resizeTimeout : g1.resizeTimeout = g.resizeTimeout

/-- The idle-offset invariant: the index is in range, the current slide sits
at `0`, its wrap neighbours at `-width` and `+width`, and no reset is
pending. -/
def IdleOffsets (g : BasicGallery) : Prop :=
  0 ≤ g.index ∧ g.index < (g.slides.length : Int) ∧
  g.slidePos.get g.index = some 0 ∧
  g.slidePos.get (g.wrapIndex (g.index - 1)) = some (-g.width) ∧
  g.slidePos.get (g.wrapIndex (g.index + 1)) = some g.width ∧
  g.resetPending = false

/-- The state once the pending reset timer, if there is one, has expired. -/
def afterReset (g : BasicGallery) (now : Int) : BasicGallery :=
  if g.resetPending then g.fireTimer (g.resetSlideTimeout.getD 0) now else g

/-- Timer handles are fresh: every pending timer has a handle that
`setTimeout` has already given out. -/
def HandlesIssued (g : BasicGallery) : Prop :=
  ∀ t ∈ g.timers, t.handle ≤ (g.nextHandle : Int)

/-- Three slides, not continuous, width 300, at the last index 2, stacked. -/
def linear3End : BasicGallery :=
  atRest [freshSlide 0, freshSlide 1, freshSlide 2] false 2 300
    [some (-300), some (-300), some 0]

/-- The state `g` inside a touch session that started at the origin at time
0: after `touchstart` (`scrolling = none`) or after the first move sample
has settled the axis (`scrolling = some b`). -/
def inSession (g : BasicGallery) (scrolling : Option Bool) : BasicGallery :=
  { g with validTouchEvent := true, touchStartData := some ⟨0, 0, 0⟩,
           isScrolling := scrolling }

/-- What a vertical-locked session may still change: the recorded delta, the
`validTouchEvent` flag and the pending timers. -/
structure SameLayout (g g1 : BasicGallery) : Prop where
  index : g1.index = g.index
  slidePos : g1.slidePos = g.slidePos
  slides : g1.slides = g.slides
  slideChangedCalls : g1.slideChangedCalls = g.slideChangedCalls
  isScrolling : g1.isScrolling = g.isScrolling
  touchStartData : g1.touchStartData = g.touchStartData

/-- The contents of the slides, in order. -/
def contents (g : BasicGallery) : List Nat := g.slides.map (fun s => s.content)

/-- A container with the single slide `a`. -/
def single (a : Slide) (w : ℚ) : Container := ⟨[a], w, w, false⟩

/-- The state `g` at the end of a horizontal one-finger drag that started at
time `startTime` and whose last sample was `dx` to the right of the start. -/
def dragged (g : BasicGallery) (dx : ℚ) (startTime : Int) : BasicGallery :=
  { g with touchStartData := some ⟨0, 0, startTime⟩,
           touchDelta := ⟨JSNum.fin dx, JSNum.fin 0⟩,
           isScrolling := some false }

/-- The four-slide scenario in the middle of the transition `slide(1)` from
index 0, with index, offsets and timers as that call leaves them: index 1,
the reset of slide 2 to `+300` pending under handle 1, the notification
pending under handle 2. The slides carry no inline style. -/
def midTransition4 : BasicGallery :=
  { atRest [freshSlide 0, freshSlide 1, freshSlide 2, freshSlide 3] true 1 300
      [some (-300), some 0, some 300, some (-300)] with
    resetSlideTimeout := some 1, boundResetSlide := some (2, 300),
    timers := [⟨1, 300, Callback.resetSlide 2 300⟩, ⟨2, 10, Callback.slideChanged⟩],
    nextHandle := 2 }

/-- Four slides, continuous, width 300, at rest at the last index 3. -/
def lastOf4 : BasicGallery :=
  atRest [freshSlide 0, freshSlide 1, freshSlide 2, freshSlide 3] true 3 300
    [some 300, some (-300), some (-300), some 0]

/-- A container with three fresh slides, 300 wide. -/
def three : Container := ⟨[freshSlide 0, freshSlide 1, freshSlide 2], 300, 300, false⟩

/-- The current index is in `[0, N)`. -/
def InRange (g : BasicGallery) : Prop :=
  0 ≤ g.index ∧ g.index < (g.slides.length : Int)

/-- Three-bucket stacking around the current index: every slide before it
sits at `-width`, the current slide at `0`, every slide after it at
`+width`. -/
def Stacked (g : BasicGallery) : Prop :=
  ∀ i : Nat, i < g.slides.length →
    ((i : Int) < g.index → g.slidePos.get i = some (-g.width)) ∧
    ((i : Int) = g.index → g.slidePos.get i = some 0) ∧
    (g.index < (i : Int) → g.slidePos.get i = some g.width)

/-- The timer re-issues a `slide` call. -/
def isRetry (t : Timer) : Bool :=
  match t.callback with
  | Callback.slide _ _ _ => true
  | _ => false

/-- The test of the pre-positioning step of `slide` (source lines 152-155),
on the state `g` in which `slide` evaluates it. -/
def needsPrePosition (g : BasicGallery) (destinationIndex : Int) (ignoreWrap : Bool) : Bool :=
  g.continuous && ignoreWrap &&
    ((decide (destinationIndex = 0) &&
        JSNum.gt (JSNum.ofOption (g.slidePos.get 0)) (JSNum.fin 0)) ||
     (decide (destinationIndex = (g.slides.length : Int) - 1) &&
        JSNum.lt (JSNum.ofOption (g.slidePos.get destinationIndex)) (JSNum.fin 0)))

/-- The pre-positioning step of `slide` (source lines 152-159). -/
def prePosition (g : BasicGallery) (destinationIndex : Int) (ignoreWrap : Bool) :
    BasicGallery :=
  if g.needsPrePosition destinationIndex ignoreWrap then
    g.moveSlideAtIndex destinationIndex ((if destinationIndex = 0 then -1 else 1) * g.width) 0
  else g

/-- Three slides, not continuous, width 300, index 0, stacked. -/
def linear3 : BasicGallery :=
  atRest [freshSlide 0, freshSlide 1, freshSlide 2] false 0 300
    [some 0, some 300, some 300]

end BasicGallery

/-! ## Arithmetic of `wrapIndex` and of JavaScript arrays -/

theorem Int.neg_lt_tmod_of_pos (i n : Int) (hn : 0 < n) : -n < i.tmod n := by
  cases i with
  | ofNat a =>
    have := Int.tmod_nonneg n (Int.ofNat_nonneg a)
    simp only [Int.ofNat_eq_coe] at *
    omega
  | negSucc a =>
    obtain ⟨m, rfl⟩ : ∃ m : Nat, n = (m : Int) := ⟨n.toNat, (Int.toNat_of_nonneg hn.le).symm⟩
    cases m with
    | zero => simp at hn
    | succ k =>
      show -((k + 1 : Nat) : Int) < Int.tmod (Int.negSucc a) (Int.ofNat (k + 1))
      simp only [Int.tmod, Int.ofNat_eq_coe]
      have : (a.succ % (k + 1)) < k + 1 := Nat.mod_lt _ (Nat.succ_pos k)
      omega

theorem Int.add_tmod_tmod_eq_emod (n i : Int) (hn : 0 < n) :
    (n + i.tmod n).tmod n = i % n := by
  have h1 : i.tmod n < n := Int.tmod_lt_of_pos i hn
  have h2 : -n < i.tmod n := Int.neg_lt_tmod_of_pos i n hn
  rw [Int.tmod_eq_emod (by omega) (le_of_lt hn)]
  rw [Int.tmod_def, Int.add_emod, Int.sub_emod]
  simp

theorem JSArray.setExt_getD (l : List (Option ℚ)) (n m : Nat) (v : ℚ) :
    (JSArray.setExt l n v)[m]?.getD none = if m = n then some v else l[m]?.getD none := by
  unfold JSArray.setExt
  split
  · rename_i h
    by_cases hm : m = n
    · subst hm; simp [h]
    · simp [hm, List.getElem?_set, Ne.symm hm]
  · rename_i h
    rcases Nat.lt_trichotomy m n with hm | hm | hm
    · have : m ≠ n := by omega
      simp only [this, if_false]
      by_cases hl : m < l.length
      · simp [List.getElem?_append, hl]
      · have h1 : l[m]? = none := by simp; omega
        have h2 : m - l.length < n - l.length := by omega
        simp [List.getElem?_append, hl, h1, h2, List.getElem?_replicate]
    · subst hm
      simp [List.getElem?_append, h]
    · have : m ≠ n := by omega
      have h1 : l[m]? = none := by simp; omega
      have h2 : (l ++ List.replicate (n - l.length) none ++ [some v])[m]? = none := by
        rw [List.getElem?_eq_none]; simp; omega
      simp only [this, if_false, h1, h2, Option.getD_none]

theorem JSArray.get_set (a : JSArray) (i j : Int) (v : ℚ) :
    (a.set i v).get j = if j = i then some v else a.get j := by
  cases i <;> cases j <;> simp [JSArray.set, JSArray.get, JSArray.setExt_getD]

namespace BasicGallery

theorem wrapIndex_eq_emod (g : BasicGallery) (i : Int) (hN : 1 ≤ g.slides.length) :
    g.wrapIndex i = i % (g.slides.length : Int) := by
  unfold wrapIndex
  exact Int.add_tmod_tmod_eq_emod _ _ (by omega)

/-! ## Claims -/

/-- `wrapIndex` lands in `[0, N)`. -/
theorem wrapIndex_bounds (g : BasicGallery) (i : Int) (hN : 1 ≤ g.slides.length) :
    0 ≤ g.wrapIndex i ∧ g.wrapIndex i < (g.slides.length : Int) := by
  have hpos : (0 : Int) < (g.slides.length : Int) := by omega
  rw [wrapIndex_eq_emod g i hN]
  exact ⟨Int.emod_nonneg _ (by omega), Int.emod_lt_of_pos _ hpos⟩

/-- C1: for every gallery with at least one slide and every integer `i`,
`wrapIndex(i)` lies in `[0, N)` and `wrapIndex(i) = wrapIndex(i + N)`, where
`N` is the number of slides and `%` is the truncated remainder. -/
theorem wrapIndex_range_periodic (g : BasicGallery) (i : Int)
    (hN : 1 ≤ g.slides.length) :
    0 ≤ g.wrapIndex i ∧ g.wrapIndex i < (g.slides.length : Int) ∧
      g.wrapIndex i = g.wrapIndex (i + (g.slides.length : Int)) := by
  have hpos : (0 : Int) < (g.slides.length : Int) := by omega
  rw [wrapIndex_eq_emod g i hN, wrapIndex_eq_emod g _ hN]
  refine ⟨Int.emod_nonneg _ (by omega), Int.emod_lt_of_pos _ hpos, ?_⟩
  simp

end BasicGallery

namespace BasicGallery

theorem wrapIndex_range_periodic_witness :
    1 ≤ scenario4.slides.length ∧
      (0 ≤ scenario4.wrapIndex (-5) ∧ scenario4.wrapIndex (-5) < (scenario4.slides.length : Int) ∧
        scenario4.wrapIndex (-5) = scenario4.wrapIndex (-5 + (scenario4.slides.length : Int))) :=
  ⟨by decide, wrapIndex_range_periodic scenario4 (-5) (by decide)⟩

end BasicGallery

namespace BasicGallery

/-! ### Layout writes -/

theorem translate_eq (g : BasicGallery) (i : Int) (d : JSNum) (sp : Int) :
    ∃ cs : List Slide, cs.length = g.slides.length ∧
      g.translate i d sp = { g with container := { g.container with children := cs } } := by
  unfold translate
  cases i with
  | ofNat n =>
    simp only
    cases h : g.slides[n]? with
    | none => exact ⟨g.slides, rfl, rfl⟩
    | some sl => exact ⟨_, by simp, rfl⟩
  | negSucc n => exact ⟨g.slides, rfl, rfl⟩

theorem moveSlideAtIndex_eq (g : BasicGallery) (i : Int) (d : ℚ) (sp : Int) :
    ∃ cs : List Slide, cs.length = g.slides.length ∧
      g.moveSlideAtIndex i d sp =
        { g with container := { g.container with children := cs },
                 slidePos := g.slidePos.set i d } := by
  obtain ⟨cs, hlen, h⟩ := translate_eq g i (JSNum.fin d) sp
  refine ⟨cs, hlen, ?_⟩
  unfold moveSlideAtIndex
  simp only [h]

theorem SameButLayout.same (g : BasicGallery) : SameButLayout g g :=
  ⟨rfl, rfl, rfl, rfl, rfl, rfl, rfl, rfl, rfl, rfl, rfl⟩

theorem SameButLayout.andThen {a b c : BasicGallery} (h1 : SameButLayout a b)
    (h2 : SameButLayout b c) : SameButLayout a c :=
  ⟨h2.len.trans h1.len, h2.continuous.trans h1.continuous, h2.index.trans h1.index,
   h2.width.trans h1.width, h2.speed.trans h1.speed,
   h2.resetSlideTimeout.trans h1.resetSlideTimeout,
   h2.boundResetSlide.trans h1.boundResetSlide, h2.timers.trans h1.timers,
   h2.nextHandle.trans h1.nextHandle, h2.slideChangedCalls.trans h1.slideChangedCalls,
   h2.resizeTimeout.trans h1.resizeTimeout⟩

theorem moveSlideAtIndex_same (g : BasicGallery) (i : Int) (d : ℚ) (sp : Int) :
    SameButLayout g (g.moveSlideAtIndex i d sp) := by
  obtain ⟨cs, hlen, h⟩ := moveSlideAtIndex_eq g i d sp
  rw [h]
  exact ⟨hlen, rfl, rfl, rfl, rfl, rfl, rfl, rfl, rfl, rfl, rfl⟩

theorem moveSlideAtIndex_slidePos (g : BasicGallery) (i : Int) (d : ℚ) (sp : Int) :
    (g.moveSlideAtIndex i d sp).slidePos = g.slidePos.set i d := by
  obtain ⟨cs, hlen, h⟩ := moveSlideAtIndex_eq g i d sp
  rw [h]

theorem wrapIndex_congr {g g1 : BasicGallery} (h : g1.slides.length = g.slides.length)
    (i : Int) : g1.wrapIndex i = g.wrapIndex i := by
  unfold wrapIndex; rw [h]

theorem stackLoop_spec (k : Nat) : ∀ (g : BasicGallery), k ≤ g.slides.length →
    SameButLayout g (g.stackLoop k) ∧
    ∀ j : Int, (g.stackLoop k).slidePos.get j =
      if 0 ≤ j ∧ j < k then some (bucket g.index g.width j.toNat) else g.slidePos.get j := by
  induction k with
  | zero =>
    intro g _
    refine ⟨SameButLayout.same g, fun j => ?_⟩
    rw [if_neg (by omega)]
    rfl
  | succ k ih =>
    intro g hk
    have hk1 : k < g.slides.length := by omega
    obtain ⟨sl, hsl⟩ : ∃ sl, g.slides[k]? = some sl := ⟨g.slides[k], by simp [hk1]⟩
    simp only [stackLoop, hsl]
    set g1 : BasicGallery := { g with container := { g.container with
            children := g.slides.set k
              { sl with styleWidth := some g.width, dataIndex := some k } } } with hg1
    have s1 : SameButLayout g g1 :=
      ⟨by simp [hg1, slides], rfl, rfl, rfl, rfl, rfl, rfl, rfl, rfl, rfl, rfl⟩
    set g2 := g1.moveSlideAtIndex k
      (if g1.index > k then -g1.width else (if g1.index < k then g1.width else 0)) 0 with hg2
    have s2 : SameButLayout g1 g2 := moveSlideAtIndex_same _ _ _ _
    have s12 := s1.andThen s2
    obtain ⟨s3, hget⟩ := ih g2 (by rw [s12.len]; omega)
    refine ⟨s12.andThen s3, fun j => ?_⟩
    rw [hget j, s12.index, s12.width]
    by_cases hj : 0 ≤ j ∧ j < (k : Int)
    · rw [if_pos hj, if_pos (by omega)]
    · rw [if_neg hj, hg2, moveSlideAtIndex_slidePos, JSArray.get_set]
      by_cases hjk : j = (k : Int)
      · subst hjk
        have h1 : (0 : Int) ≤ k ∧ (k : Int) < ((k + 1 : Nat) : Int) := by omega
        rw [if_pos h1]
        simp [bucket, hg1]
      · rw [if_neg hjk, if_neg (by omega)]

theorem emod_add_ne (x k n : Int) (hk : 0 < k) (hkn : k < n) :
    (x + k) % n ≠ x % n := by
  intro h
  have h1 := (Int.emod_eq_emod_iff_emod_sub_eq_zero).1 h
  have h2 : x + k - x = k := by ring
  rw [h2, Int.emod_eq_of_lt hk.le hkn] at h1
  omega

theorem wrap_neighbours_ne (g : BasicGallery) (c : Int) (hN : 3 ≤ g.slides.length) :
    g.wrapIndex (c - 1) ≠ g.wrapIndex (c + 1) := by
  rw [wrapIndex_eq_emod g _ (by omega), wrapIndex_eq_emod g _ (by omega)]
  have := emod_add_ne (c - 1) 2 g.slides.length (by norm_num) (by omega)
  have h2 : c - 1 + 2 = c + 1 := by ring
  rw [h2] at this
  exact fun h => this h.symm

/-- The offsets that `initialize()` leaves. -/
theorem initializeGallery_layout (g : BasicGallery) :
    (g.initializeGallery).width = g.measuredWidth ∧
    (g.initializeGallery).index = g.index ∧
    (g.continuous = false → ∀ i : Nat, i < g.slides.length →
      ((i : Int) < g.index → (g.initializeGallery).slidePos.get i = some (-g.measuredWidth)) ∧
      ((i : Int) = g.index → (g.initializeGallery).slidePos.get i = some 0) ∧
      (g.index < (i : Int) → (g.initializeGallery).slidePos.get i = some g.measuredWidth)) ∧
    (g.continuous = true → 3 ≤ g.slides.length →
      (g.initializeGallery).slidePos.get (g.wrapIndex (g.index - 1)) = some (-g.measuredWidth) ∧
      (g.initializeGallery).slidePos.get (g.wrapIndex (g.index + 1)) = some g.measuredWidth ∧
      (0 ≤ g.index → g.index < (g.slides.length : Int) →
        (g.initializeGallery).slidePos.get g.index = some 0) ∧
      ∀ i : Nat, i < g.slides.length →
        (i : Int) ≠ g.wrapIndex (g.index - 1) → (i : Int) ≠ g.wrapIndex (g.index + 1) →
        ((i : Int) < g.index → (g.initializeGallery).slidePos.get i = some (-g.measuredWidth)) ∧
        ((i : Int) = g.index → (g.initializeGallery).slidePos.get i = some 0) ∧
        (g.index < (i : Int) → (g.initializeGallery).slidePos.get i = some g.measuredWidth)) := by
  set g1 : BasicGallery := { g with resizeTimeout := -1, width := g.measuredWidth } with hg1
  obtain ⟨s, hget⟩ := stackLoop_spec g1.slides.length g1 le_rfl
  have hlen : g1.slides.length = g.slides.length := rfl
  have hbucket : ∀ i : Nat, i < g.slides.length →
      (g1.stackLoop g1.slides.length).slidePos.get i = some (bucket g.index g.measuredWidth i) := by
    intro i hi
    rw [hget, if_pos (by omega)]
    simp [hg1]
  have hb : ∀ i : Nat,
      ((i : Int) < g.index → bucket g.index g.measuredWidth i = -g.measuredWidth) ∧
      ((i : Int) = g.index → bucket g.index g.measuredWidth i = 0) ∧
      (g.index < (i : Int) → bucket g.index g.measuredWidth i = g.measuredWidth) := by
    intro i
    unfold bucket
    refine ⟨fun h => by simp [h], fun h => by simp [← h], fun h => ?_⟩
    rw [if_neg (by omega), if_pos h]
  cases hc : g.continuous with
  | false =>
    have hinit : g.initializeGallery = g1.stackLoop g1.slides.length := by
      unfold initializeGallery
      simp only [← hg1]
      rw [if_neg]
      rw [s.continuous]; simp [hg1, hc]
    rw [hinit]
    refine ⟨s.width, s.index, fun _ i hi => ?_, fun h => by simp at h⟩
    rw [hbucket i hi]
    obtain ⟨h1, h2, h3⟩ := hb i
    exact ⟨fun h => by rw [h1 h], fun h => by rw [h2 h], fun h => by rw [h3 h]⟩
  | true =>
    set g2 := g1.stackLoop g1.slides.length with hg2
    set g3 := g2.moveSlideAtIndex (g2.wrapIndex (g2.index - 1)) (-g2.width) 0 with hg3
    have hinit : g.initializeGallery =
        g3.moveSlideAtIndex (g3.wrapIndex (g3.index + 1)) g3.width 0 := by
      unfold initializeGallery
      simp only [← hg1, ← hg2]
      rw [if_pos]
      rw [s.continuous]; simp [hg1, hc]
    have s3 : SameButLayout g2 g3 := moveSlideAtIndex_same _ _ _ _
    have s13 := s.andThen s3
    have s4 := s13.andThen (moveSlideAtIndex_same g3 (g3.wrapIndex (g3.index + 1)) g3.width 0)
    have hw2 : g2.width = g.measuredWidth := s.width
    have hi2 : g2.index = g.index := s.index
    have hw3 : g3.width = g.measuredWidth := s13.width
    have hi3 : g3.index = g.index := s13.index
    have hwr2 : ∀ i, g2.wrapIndex i = g.wrapIndex i := fun i => wrapIndex_congr (s.len.trans hlen) i
    have hwr3 : ∀ i, g3.wrapIndex i = g.wrapIndex i :=
      fun i => wrapIndex_congr (s13.len.trans hlen) i
    have hpos : ∀ j : Int, (g.initializeGallery).slidePos.get j =
        if j = g.wrapIndex (g.index + 1) then some g.measuredWidth
        else if j = g.wrapIndex (g.index - 1) then some (-g.measuredWidth)
        else g2.slidePos.get j := by
      intro j
      rw [hinit, moveSlideAtIndex_slidePos, JSArray.get_set, hg3, moveSlideAtIndex_slidePos,
        JSArray.get_set, ← hg3, hwr3, hwr2, hw3, hw2, hi3, hi2]
    rw [hinit]
    refine ⟨s4.width, s4.index, fun h => by simp at h, fun _ hN => ?_⟩
    rw [← hinit]
    have hne := wrap_neighbours_ne g g.index hN
    refine ⟨?_, ?_, ?_, ?_⟩
    · rw [hpos, if_neg hne, if_pos rfl]
    · rw [hpos, if_pos rfl]
    · intro h0 hlt
      have hN1 : 1 ≤ g.slides.length := by omega
      have hself : g.index % (g.slides.length : Int) = g.index := Int.emod_eq_of_lt h0 hlt
      have e1 : g.index ≠ g.wrapIndex (g.index + 1) := by
        rw [wrapIndex_eq_emod g _ hN1]
        have := emod_add_ne g.index 1 g.slides.length (by norm_num) (by omega)
        rw [hself] at this
        exact fun h => this h.symm
      have e2 : g.index ≠ g.wrapIndex (g.index - 1) := by
        rw [wrapIndex_eq_emod g _ hN1]
        have := emod_add_ne (g.index - 1) 1 g.slides.length (by norm_num) (by omega)
        rw [sub_add_cancel, hself] at this
        exact this
      rw [hpos, if_neg e1, if_neg e2]
      obtain ⟨n, hn⟩ : ∃ n : Nat, g.index = (n : Int) := ⟨g.index.toNat, by omega⟩
      have e3 := hbucket n (by omega)
      rw [(hb n).2.1 hn.symm, ← hn] at e3
      exact e3
    · intro i hi n1 n2
      rw [hpos, if_neg n2, if_neg n1, hbucket i hi]
      obtain ⟨h1, h2, h3⟩ := hb i
      exact ⟨fun h => by rw [h1 h], fun h => by rw [h2 h], fun h => by rw [h3 h]⟩


/-- C3: after `initialize()` the width is the measured width `w` and the index
is unchanged; in non-continuous mode every slide `i` has offset `-w` if
`i < c`, `0` if `i = c`, `+w` if `i > c`; in continuous mode with at least
three slides the same holds for every slide other than the two wrap
neighbours, which sit at `-w` (`wrapIndex(c-1)`) and `+w` (`wrapIndex(c+1)`),
and the current slide sits at `0` when `c` is in range. -/
theorem initialize_stacking (g : BasicGallery) :
    (g.initializeGallery).width = g.measuredWidth ∧
    (g.initializeGallery).index = g.index ∧
    (g.continuous = false → ∀ i : Nat, i < g.slides.length →
      ((i : Int) < g.index → (g.initializeGallery).slidePos.get i = some (-g.measuredWidth)) ∧
      ((i : Int) = g.index → (g.initializeGallery).slidePos.get i = some 0) ∧
      (g.index < (i : Int) → (g.initializeGallery).slidePos.get i = some g.measuredWidth)) ∧
    (g.continuous = true → 3 ≤ g.slides.length →
      (g.initializeGallery).slidePos.get (g.wrapIndex (g.index - 1)) = some (-g.measuredWidth) ∧
      (g.initializeGallery).slidePos.get (g.wrapIndex (g.index + 1)) = some g.measuredWidth ∧
      (0 ≤ g.index → g.index < (g.slides.length : Int) →
        (g.initializeGallery).slidePos.get g.index = some 0) ∧
      ∀ i : Nat, i < g.slides.length →
        (i : Int) ≠ g.wrapIndex (g.index - 1) → (i : Int) ≠ g.wrapIndex (g.index + 1) →
        ((i : Int) < g.index → (g.initializeGallery).slidePos.get i = some (-g.measuredWidth)) ∧
        ((i : Int) = g.index → (g.initializeGallery).slidePos.get i = some 0) ∧
        (g.index < (i : Int) → (g.initializeGallery).slidePos.get i = some g.measuredWidth)) :=
  initializeGallery_layout g

theorem initialize_stacking_witness :
    3 ≤ scenario4.slides.length ∧
    (scenario4.initializeGallery).slidePos.get (scenario4.wrapIndex (scenario4.index - 1)) =
      some (-scenario4.measuredWidth) ∧
    (scenario4.initializeGallery).slidePos.get (scenario4.wrapIndex (scenario4.index + 1)) =
      some scenario4.measuredWidth :=
  ⟨by decide, ((initialize_stacking scenario4).2.2.2 rfl (by decide)).1,
    ((initialize_stacking scenario4).2.2.2 rfl (by decide)).2.1⟩

end BasicGallery

namespace BasicGallery

/-! ### Seeding, reset and the end of `slide` -/


theorem seedLoop_spec (top : Int) (dist : ℚ) (k : Nat) : ∀ (g : BasicGallery),
    SameButLayout g (g.seedLoop top dist k) ∧
    (∀ m : Nat, m < k →
      (g.seedLoop top dist k).slidePos.get (g.wrapIndex (top - (m : Int) - 1)) = some dist) ∧
    (∀ j : Int, (∀ m : Nat, m < k → j ≠ g.wrapIndex (top - (m : Int) - 1)) →
      (g.seedLoop top dist k).slidePos.get j = g.slidePos.get j) := by
  induction k with
  | zero =>
    intro g
    exact ⟨SameButLayout.same g, fun m hm => absurd hm (Nat.not_lt_zero m), fun j _ => rfl⟩
  | succ k ih =>
    intro g
    set g1 := g.moveSlideAtIndex (g.wrapIndex (top - (k : Int) - 1)) dist 0 with hg1
    have s1 : SameButLayout g g1 := moveSlideAtIndex_same _ _ _ _
    have hw : ∀ i, g1.wrapIndex i = g.wrapIndex i := fun i => wrapIndex_congr s1.len i
    obtain ⟨s2, hin, hout⟩ := ih g1
    have hstep : g.seedLoop top dist (k + 1) = g1.seedLoop top dist k := rfl
    rw [hstep]
    refine ⟨s1.andThen s2, fun m hm => ?_, fun j hj => ?_⟩
    · by_cases hcov : ∃ m1 : Nat, m1 < k ∧
          g.wrapIndex (top - (m : Int) - 1) = g.wrapIndex (top - (m1 : Int) - 1)
      · obtain ⟨m1, hm1, he⟩ := hcov
        rw [he, ← hw]
        exact hin m1 hm1
      · have hnot : ∀ m1 : Nat, m1 < k →
            g.wrapIndex (top - (m : Int) - 1) ≠ g1.wrapIndex (top - (m1 : Int) - 1) := by
          intro m1 hm1 he
          exact hcov ⟨m1, hm1, by rw [he, hw]⟩
        rw [hout _ hnot, hg1, moveSlideAtIndex_slidePos, JSArray.get_set]
        have hmk : m = k := by
          by_contra hne
          exact hcov ⟨m, by omega, rfl⟩
        rw [hmk, if_pos rfl]
    · have hnot : ∀ m1 : Nat, m1 < k → j ≠ g1.wrapIndex (top - (m1 : Int) - 1) := by
        intro m1 hm1
        rw [hw]
        exact hj m1 (by omega)
      rw [hout j hnot, hg1, moveSlideAtIndex_slidePos, JSArray.get_set,
        if_neg (hj k (Nat.lt_succ_self k))]



section
variable (g : BasicGallery) (i : Int) (d : ℚ) (sp : Int)

@[simp] theorem moveSlideAtIndex_slidesLength :
    (g.moveSlideAtIndex i d sp).slides.length = g.slides.length :=
  (moveSlideAtIndex_same g i d sp).len
@[simp] theorem moveSlideAtIndex_continuous :
    (g.moveSlideAtIndex i d sp).continuous = g.continuous :=
  (moveSlideAtIndex_same g i d sp).continuous
@[simp] theorem moveSlideAtIndex_index : (g.moveSlideAtIndex i d sp).index = g.index :=
  (moveSlideAtIndex_same g i d sp).index
@[simp] theorem moveSlideAtIndex_width : (g.moveSlideAtIndex i d sp).width = g.width :=
  (moveSlideAtIndex_same g i d sp).width
@[simp] theorem moveSlideAtIndex_speed : (g.moveSlideAtIndex i d sp).speed = g.speed :=
  (moveSlideAtIndex_same g i d sp).speed
@[simp] theorem moveSlideAtIndex_resetSlideTimeout :
    (g.moveSlideAtIndex i d sp).resetSlideTimeout = g.resetSlideTimeout :=
  (moveSlideAtIndex_same g i d sp).resetSlideTimeout
@[simp] theorem moveSlideAtIndex_boundResetSlide :
    (g.moveSlideAtIndex i d sp).boundResetSlide = g.boundResetSlide :=
  (moveSlideAtIndex_same g i d sp).boundResetSlide
@[simp] theorem moveSlideAtIndex_timers : (g.moveSlideAtIndex i d sp).timers = g.timers :=
  (moveSlideAtIndex_same g i d sp).timers
@[simp] theorem moveSlideAtIndex_nextHandle :
    (g.moveSlideAtIndex i d sp).nextHandle = g.nextHandle :=
  (moveSlideAtIndex_same g i d sp).nextHandle
@[simp] theorem moveSlideAtIndex_slideChangedCalls :
    (g.moveSlideAtIndex i d sp).slideChangedCalls = g.slideChangedCalls :=
  (moveSlideAtIndex_same g i d sp).slideChangedCalls
@[simp] theorem moveSlideAtIndex_resizeTimeout :
    (g.moveSlideAtIndex i d sp).resizeTimeout = g.resizeTimeout :=
  (moveSlideAtIndex_same g i d sp).resizeTimeout
@[simp] theorem moveSlideAtIndex_wrapIndex (j : Int) :
    (g.moveSlideAtIndex i d sp).wrapIndex j = g.wrapIndex j :=
  wrapIndex_congr (moveSlideAtIndex_same g i d sp).len j

end

theorem find_issued (ts : List Timer) (n : Nat) (t : Timer) (rest : List Timer)
    (hfresh : ∀ x ∈ ts, x.handle ≤ (n : Int)) (ht : t.handle = (n : Int) + 1) :
    (ts ++ t :: rest).find? (fun x => decide (x.handle = (n : Int) + 1)) = some t := by
  induction ts with
  | nil => simp [List.find?, ht]
  | cons a as ih =>
    have ha : a.handle ≤ (n : Int) := hfresh a (List.mem_cons_self a as)
    have hne : ¬ a.handle = (n : Int) + 1 := by omega
    simp only [List.cons_append, List.find?, hne, decide_False]
    exact ih (fun x hx => hfresh x (List.mem_cons_of_mem a hx))

/-- A scheduled reset that then expires, or a reset applied at once, leaves
the same layout. -/
theorem resetSlide_afterReset (g : BasicGallery) (i : Int) (off : ℚ) (speed now : Int)
    (idx : Int) (hfresh : HandlesIssued g) (hts : g.resetSlideTimeout = some (-1)) :
    let r := ((({ (g.resetSlide i off (some speed)) with index := idx }).setTimeout
      Callback.slideChanged 10).1).afterReset now
    r.index = idx ∧ r.width = g.width ∧ r.slides.length = g.slides.length ∧
      r.resetPending = false ∧ r.slidePos = g.slidePos.set i off := by
  intro r
  set X := (({ (g.resetSlide i off (some speed)) with index := idx }).setTimeout
      Callback.slideChanged 10).1 with hX
  have hr : r = X.afterReset now := rfl
  have h0 : (0 : Int) < (g.nextHandle : Int) + 1 := by omega
  by_cases hsp : 0 < speed
  · have hXt : X.timers = g.timers ++
        ⟨(g.nextHandle : Int) + 1, speed, Callback.resetSlide i off⟩ ::
          [⟨((g.nextHandle + 1 : Nat) : Int) + 1, 10, Callback.slideChanged⟩] := by
      simp [hX, resetSlide, hts, hsp, setTimeout]
    have hXr : X.resetSlideTimeout = some ((g.nextHandle : Int) + 1) := by
      simp [hX, resetSlide, hts, hsp, setTimeout]
    have hfind : X.timers.find? (fun t => decide (t.handle = (g.nextHandle : Int) + 1)) =
        some ⟨(g.nextHandle : Int) + 1, speed, Callback.resetSlide i off⟩ := by
      rw [hXt]; exact find_issued g.timers g.nextHandle _ _ hfresh rfl
    have hpend : X.resetPending = true := by
      simp [resetPending, hXr, h0]
    have hfire : r = ((X.clearTimeout ((g.nextHandle : Int) + 1)).resetSlide i off none) := by
      rw [hr]
      unfold afterReset fireTimer
      rw [if_pos hpend, hXr]
      simp only [Option.getD_some]
      rw [hfind]
      rfl
    have hpend2 : (X.clearTimeout ((g.nextHandle : Int) + 1)).resetPending = true := hpend
    rw [hfire]
    unfold resetSlide
    simp only [hpend2, if_true, Bool.false_eq_true, if_false]
    refine ⟨?_, ?_, ?_, ?_, ?_⟩
    · simp [clearTimeout, hX, setTimeout]
    · simp [clearTimeout, hX, setTimeout, resetSlide, hts, hsp]
    · rw [moveSlideAtIndex_slidesLength]
      simp [clearTimeout, hX, setTimeout, resetSlide, hts, hsp, slides]
    · simp [resetPending]
    · rw [moveSlideAtIndex_slidePos]
      simp [clearTimeout, hX, setTimeout, resetSlide, hts, hsp]
  · have hX2 : X = (({ (({ g with resetSlideTimeout := some (-1), boundResetSlide := none } :
        BasicGallery).moveSlideAtIndex i off 0) with index := idx }).setTimeout
          Callback.slideChanged 10).1 := by
      simp [hX, resetSlide, hts, hsp, setTimeout, resetPending]
    have hpend : X.resetPending = false := by
      rw [hX2]; simp [setTimeout, resetPending]
    rw [hr]
    unfold afterReset
    rw [hpend]
    simp only [Bool.false_eq_true, if_false]
    refine ⟨?_, ?_, ?_, hpend, ?_⟩
    · rw [hX2]; simp [setTimeout]
    · rw [hX2]; simp [setTimeout]
    · rw [hX2]; show (moveSlideAtIndex _ _ _ _).slides.length = _
      rw [moveSlideAtIndex_slidesLength]; rfl
    · rw [hX2]; show (moveSlideAtIndex _ _ _ _).slidePos = _
      rw [moveSlideAtIndex_slidePos]



theorem wrapIndex_wrapIndex_add (g : BasicGallery) (x k : Int) (hN : 1 ≤ g.slides.length) :
    g.wrapIndex (g.wrapIndex x + k) = g.wrapIndex (x + k) := by
  rw [wrapIndex_eq_emod g _ hN, wrapIndex_eq_emod g _ hN, wrapIndex_eq_emod g _ hN]
  exact (Int.ModEq.add_right k (Int.mod_modEq x _))

theorem wrapIndex_add_mul (g : BasicGallery) (x k : Int) (hN : 1 ≤ g.slides.length) :
    g.wrapIndex (x + k * (g.slides.length : Int)) = g.wrapIndex x := by
  rw [wrapIndex_eq_emod g _ hN, wrapIndex_eq_emod g _ hN]
  exact Int.add_mul_emod_self

theorem wrapIndex_of_range (g : BasicGallery) (x : Int) (h0 : 0 ≤ x)
    (h1 : x < (g.slides.length : Int)) : g.wrapIndex x = x := by
  rw [wrapIndex_eq_emod g _ (by omega)]
  exact Int.emod_eq_of_lt h0 h1

theorem wrapIndex_add_ne (g : BasicGallery) (x k : Int) (hk : 0 < k)
    (hkN : k < (g.slides.length : Int)) : g.wrapIndex (x + k) ≠ g.wrapIndex x := by
  rw [wrapIndex_eq_emod g _ (by omega), wrapIndex_eq_emod g _ (by omega)]
  exact emod_add_ne x k _ hk hkN

theorem slideFinish_afterReset (g : BasicGallery) (dest f speed now : Int)
    (hc : g.continuous = true) (hfresh : HandlesIssued g) :
    ((g.slideFinish dest f speed).afterReset now).index = g.wrapIndex dest ∧
    ((g.slideFinish dest f speed).afterReset now).width = g.width ∧
    ((g.slideFinish dest f speed).afterReset now).slides.length = g.slides.length ∧
    ((g.slideFinish dest f speed).afterReset now).resetPending = false ∧
    ((g.slideFinish dest f speed).afterReset now).slidePos =
      ((((g.seedLoop (if dest > g.index then dest else g.index) (g.width * f)
          ((g.index - dest).natAbs - 1)).slidePos.set g.index (g.width * f)).set
          (g.wrapIndex dest) 0).set (g.wrapIndex (g.wrapIndex dest - f)) (-g.width * f)) := by
  set g4 := g.seedLoop (if dest > g.index then dest else g.index) (g.width * f)
          ((g.index - dest).natAbs - 1) with hg4
  obtain ⟨s4, -, -⟩ := seedLoop_spec (if dest > g.index then dest else g.index) (g.width * f)
          ((g.index - dest).natAbs - 1) g
  rw [← hg4] at s4
  set g5 := g4.moveSlideAtIndex g4.index (g4.width * f) speed with hg5
  have s5 : SameButLayout g4 g5 := moveSlideAtIndex_same _ _ _ _
  set g6 := g5.moveSlideAtIndex (g4.wrapIndex dest) 0 speed with hg6
  have s6 : SameButLayout g5 g6 := moveSlideAtIndex_same _ _ _ _
  have s := (s4.andThen s5).andThen s6
  have hpos6 : g6.slidePos = (g4.slidePos.set g.index (g.width * f)).set (g.wrapIndex dest) 0 := by
    rw [hg6, moveSlideAtIndex_slidePos, hg5, moveSlideAtIndex_slidePos, s4.index, s4.width,
      wrapIndex_congr s4.len]
  set g7 : BasicGallery := { g6 with resetSlideTimeout := some (-1) } with hg7
  have hfin : g.slideFinish dest f speed =
      (({ (g7.resetSlide (g6.wrapIndex (g4.wrapIndex dest - f)) (-g6.width * f) (some speed))
          with index := g4.wrapIndex dest }).setTimeout Callback.slideChanged 10).1 := by
    unfold slideFinish
    simp only [← hg4, ← hg5, ← hg6]
    rw [if_pos (by rw [s.continuous]; exact hc)]
  have hfresh7 : HandlesIssued g7 := by
    intro t ht
    have : t ∈ g.timers := by rw [← s.timers]; exact ht
    have h2 := hfresh t this
    have h3 : g7.nextHandle = g.nextHandle := s.nextHandle
    rw [h3]; exact h2
  have key := resetSlide_afterReset g7 (g6.wrapIndex (g4.wrapIndex dest - f)) (-g6.width * f)
    speed now (g4.wrapIndex dest) hfresh7 rfl
  simp only at key
  rw [← hfin] at key
  obtain ⟨k1, k2, k3, k4, k5⟩ := key
  have hr : g6.wrapIndex (g4.wrapIndex dest - f) = g.wrapIndex (g.wrapIndex dest - f) := by
    rw [wrapIndex_congr s.len, wrapIndex_congr s4.len]
  have hd : g4.wrapIndex dest = g.wrapIndex dest := wrapIndex_congr s4.len dest
  refine ⟨k1.trans hd, k2.trans s.width, k3.trans s.len, k4, ?_⟩
  rw [k5, hr, s.width]
  show g6.slidePos.set _ _ = _
  rw [hpos6]

end BasicGallery

namespace BasicGallery


/-- The end of `slide` re-establishes the idle offsets around the wrapped
destination, once the slide behind the destination (in travel direction) is
the old current slide or one of the seeded slides. -/
theorem slideFinish_idle (g : BasicGallery) (dest f speed now : Int)
    (hc : g.continuous = true) (hfresh : HandlesIssued g) (hN : 3 ≤ g.slides.length)
    (hf : f = 1 ∨ f = -1)
    (hcov : g.wrapIndex (dest + f) = g.index ∨
      ∃ m : Nat, m < (g.index - dest).natAbs - 1 ∧
        g.wrapIndex (dest + f) =
          g.wrapIndex ((if dest > g.index then dest else g.index) - (m : Int) - 1)) :
    IdleOffsets ((g.slideFinish dest f speed).afterReset now) ∧
    ((g.slideFinish dest f speed).afterReset now).index = g.wrapIndex dest ∧
    ((g.slideFinish dest f speed).afterReset now).width = g.width ∧
    ((g.slideFinish dest f speed).afterReset now).slides.length = g.slides.length := by
  obtain ⟨k1, k2, k3, k4, k5⟩ := slideFinish_afterReset g dest f speed now hc hfresh
  obtain ⟨-, hin, -⟩ := seedLoop_spec (if dest > g.index then dest else g.index) (g.width * f)
          ((g.index - dest).natAbs - 1) g
  set R := (g.slideFinish dest f speed).afterReset now with hR
  set P4 := (g.seedLoop (if dest > g.index then dest else g.index) (g.width * f)
          ((g.index - dest).natAbs - 1)).slidePos with hP4
  have hN1 : 1 ≤ g.slides.length := by omega
  have hwrapR : ∀ x, R.wrapIndex x = g.wrapIndex x := fun x => wrapIndex_congr k3 x
  obtain ⟨t0, t1⟩ := wrapIndex_bounds g dest hN1
  have hget : ∀ j, R.slidePos.get j =
      if j = g.wrapIndex (g.wrapIndex dest - f) then some (-g.width * f)
      else if j = g.wrapIndex dest then some 0
      else if j = g.index then some (g.width * f) else P4.get j := by
    intro j
    rw [k5, JSArray.get_set, JSArray.get_set, JSArray.get_set]
  -- the three slides around the destination are distinct
  have hself : g.wrapIndex (g.wrapIndex dest) = g.wrapIndex dest :=
    wrapIndex_of_range g _ t0 t1
  have hplus : g.wrapIndex (g.wrapIndex dest + 1) ≠ g.wrapIndex dest := by
    have := wrapIndex_add_ne g (g.wrapIndex dest) 1 (by norm_num) (by omega)
    rwa [hself] at this
  have hminus : g.wrapIndex (g.wrapIndex dest - 1) ≠ g.wrapIndex dest := by
    have := wrapIndex_add_ne g (g.wrapIndex dest - 1) 1 (by norm_num) (by omega)
    rw [sub_add_cancel, hself] at this
    exact fun h => this h.symm
  have hpm : g.wrapIndex (g.wrapIndex dest - 1) ≠ g.wrapIndex (g.wrapIndex dest + 1) :=
    wrap_neighbours_ne g _ hN
  have hbehind : P4.get (g.wrapIndex (dest + f)) = some (g.width * f) ∨
      g.wrapIndex (dest + f) = g.index := by
    rcases hcov with h | ⟨m, hm, he⟩
    · exact Or.inr h
    · left; rw [he]; exact hin m hm
  have hww : g.wrapIndex (g.wrapIndex dest + f) = g.wrapIndex (dest + f) :=
    wrapIndex_wrapIndex_add g dest f hN1
  refine ⟨⟨?_, ?_, ?_, ?_, ?_, k4⟩, k1, k2, k3⟩
  · rw [k1]; exact t0
  · rw [k1, k3]; exact t1
  · rw [k1, hget]
    rcases hf with hf | hf
    · subst hf; rw [if_neg (Ne.symm hminus), if_pos rfl]
    · subst hf
      rw [sub_neg_eq_add, if_neg (Ne.symm hplus), if_pos rfl]
  · rw [k1, k2, hwrapR, hget]
    rcases hf with hf | hf
    · subst hf; rw [if_pos rfl]; simp
    · subst hf
      rw [sub_neg_eq_add, if_neg hpm, if_neg hminus]
      have hww2 : g.wrapIndex (g.wrapIndex dest - 1) = g.wrapIndex (dest + -1) := hww
      rcases hbehind with hb | hb
      · by_cases hi : g.wrapIndex (g.wrapIndex dest - 1) = g.index
        · rw [if_pos hi]; simp
        · rw [if_neg hi, hww2, hb]; simp
      · rw [if_pos (hww2.trans hb)]; simp
  · rw [k1, k2, hwrapR, hget]
    rcases hf with hf | hf
    · subst hf
      rw [if_neg (Ne.symm hpm), if_neg hplus]
      rcases hbehind with hb | hb
      · by_cases hi : g.wrapIndex (g.wrapIndex dest + 1) = g.index
        · rw [if_pos hi]; simp
        · rw [if_neg hi, hww, hb]; simp
      · rw [if_pos (hww.trans hb)]; simp
    · subst hf; rw [sub_neg_eq_add, if_pos rfl]; simp


theorem natural_direction_lt (x : Int) (hx : x ≠ 0) :
    JSNum.lt (JSNum.div (JSNum.fin |((x : Int) : ℚ)|) (JSNum.fin ((x : Int) : ℚ)))
      (JSNum.fin 0) = decide (x < 0) := by
  have hq : ((x : Int) : ℚ) ≠ 0 := by exact_mod_cast hx
  simp only [JSNum.div, hq, if_false, JSNum.lt]
  rcases lt_or_gt_of_ne hx with h | h
  · have hq2 : ((x : Int) : ℚ) < 0 := by exact_mod_cast h
    have : |((x : Int) : ℚ)| / (x : ℚ) < 0 := by
      rw [abs_of_neg hq2]; rw [neg_div, div_self hq]; norm_num
    simp [this, h]
  · have hq2 : (0 : ℚ) < ((x : Int) : ℚ) := by exact_mod_cast h
    have : ¬ |((x : Int) : ℚ)| / (x : ℚ) < 0 := by
      rw [abs_of_pos hq2, div_self hq]; norm_num
    have h3 : ¬ x < 0 := by omega
    simp [this, h3]

/-- In continuous mode, with no reset pending and `ignoreWrap` not set,
`slide` to another index re-establishes the idle offsets around the wrapped
destination once the scheduled reset has expired, whatever the offsets and
the width were before. -/
theorem slide_settles (g : BasicGallery) (d : Int) (sp : Option Int) (now : Int)
    (hc : g.continuous = true) (hfresh : HandlesIssued g) (hN : 3 ≤ g.slides.length)
    (h0 : 0 ≤ g.index) (h1 : g.index < (g.slides.length : Int))
    (hp : g.resetPending = false) (hd : d ≠ g.index) :
    IdleOffsets ((g.slide d sp false).afterReset now) ∧
    ((g.slide d sp false).afterReset now).index = g.wrapIndex d ∧
    ((g.slide d sp false).afterReset now).width = g.width ∧
    ((g.slide d sp false).afterReset now).slides.length = g.slides.length := by
  have hN1 : 1 ≤ g.slides.length := by omega
  have hne : ¬ g.index = d := fun h => hd h.symm
  have hx : g.index - d ≠ 0 := by omega
  have hnat : JSNum.lt (JSNum.div (JSNum.fin |(g.index : ℚ) - (d : ℚ)|)
      (JSNum.fin ((g.index : ℚ) - (d : ℚ)))) (JSNum.fin 0) = decide (g.index - d < 0) := by
    rw [← Int.cast_sub]; exact natural_direction_lt (g.index - d) hx
  have hself : g.wrapIndex g.index = g.index := wrapIndex_of_range g _ h0 h1
  cases hb : JSNum.lt (JSNum.div
      (JSNum.neg (JSNum.ofOption (g.slidePos.get (g.wrapIndex d)))) (JSNum.fin g.width))
      (JSNum.fin 0) with
  | true =>
    rcases lt_or_gt_of_ne hd with hlt | hgt
    · -- backward by index, forward by offset: the destination becomes `d - N`
      have hneg : ¬ g.index - d < 0 := by omega
      have hs : g.slide d sp false =
          g.slideFinish (-1 * (g.slides.length : Int) + d) (-1) (g.effectiveSpeed sp) := by
        unfold slide
        simp [hne, hp, hc, hb, hnat, hneg]
      rw [hs]
      have hw : g.wrapIndex (-1 * (g.slides.length : Int) + d) = g.wrapIndex d := by
        rw [add_comm]; exact wrapIndex_add_mul g d (-1) hN1
      rw [← hw]
      refine slideFinish_idle g _ (-1) _ now hc hfresh hN (Or.inr rfl) (Or.inr ?_)
      refine ⟨(g.index - d).toNat, by omega, ?_⟩
      rw [if_neg (by omega)]
      have e1 : (((g.index - d).toNat : Nat) : Int) = g.index - d := by omega
      rw [e1]
      have e2 : -1 * (g.slides.length : Int) + d + -1 = (d - 1) + (-1) * (g.slides.length : Int) := by
        ring
      have e3 : g.index - (g.index - d) - 1 = d - 1 := by ring
      rw [e2, e3, wrapIndex_add_mul g _ _ hN1]
    · -- forward both ways
      have hneg : g.index - d < 0 := by omega
      have hs : g.slide d sp false =
          g.slideFinish d (-1) (g.effectiveSpeed sp) := by
        unfold slide
        simp [hne, hp, hc, hb, hnat, hneg]
      rw [hs]
      refine slideFinish_idle g _ (-1) _ now hc hfresh hN (Or.inr rfl) ?_
      by_cases hadj : d = g.index + 1
      · left; rw [hadj]; simp [hself]
      · right
        refine ⟨0, by omega, ?_⟩
        rw [if_pos (by omega)]
        simp
        rfl
  | false =>
    rcases lt_or_gt_of_ne hd with hlt | hgt
    · -- backward both ways
      have hneg : ¬ g.index - d < 0 := by omega
      have hs : g.slide d sp false =
          g.slideFinish d 1 (g.effectiveSpeed sp) := by
        unfold slide
        simp [hne, hp, hc, hb, hnat, hneg]
      rw [hs]
      refine slideFinish_idle g _ 1 _ now hc hfresh hN (Or.inl rfl) ?_
      by_cases hadj : d = g.index - 1
      · left; rw [hadj]; simp [hself]
      · right
        refine ⟨(g.index - d - 2).toNat, by omega, ?_⟩
        rw [if_neg (by omega)]
        have e1 : (((g.index - d - 2).toNat : Nat) : Int) = g.index - d - 2 := by omega
        rw [e1]
        have e3 : g.index - (g.index - d - 2) - 1 = d + 1 := by ring
        rw [e3]
    · -- forward by index, backward by offset: the destination becomes `d + N`
      have hneg : g.index - d < 0 := by omega
      have hs : g.slide d sp false =
          g.slideFinish (1 * (g.slides.length : Int) + d) 1 (g.effectiveSpeed sp) := by
        unfold slide
        simp [hne, hp, hc, hb, hnat, hneg]
      rw [hs]
      have hw : g.wrapIndex (1 * (g.slides.length : Int) + d) = g.wrapIndex d := by
        rw [add_comm]; exact wrapIndex_add_mul g d 1 hN1
      rw [← hw]
      refine slideFinish_idle g _ 1 _ now hc hfresh hN (Or.inl rfl) (Or.inr ?_)
      refine ⟨g.slides.length - 2, by omega, ?_⟩
      rw [if_pos (by omega)]
      have e1 : ((g.slides.length - 2 : Nat) : Int) = (g.slides.length : Int) - 2 := by omega
      rw [e1]
      have e2 : 1 * (g.slides.length : Int) + d - ((g.slides.length : Int) - 2) - 1 = d + 1 := by
        ring
      have e3 : 1 * (g.slides.length : Int) + d + 1 = (d + 1) + 1 * (g.slides.length : Int) := by
        ring
      rw [e2, e3, wrapIndex_add_mul g _ _ hN1]

end BasicGallery

namespace BasicGallery


/-- C2: in continuous mode with at least three slides, from a state that
satisfies the idle-offset invariant, `slide(d)` to any integer `d` other than
the index, followed by the expiry of the reset it scheduled, gives a state
that satisfies the idle-offset invariant again, with index `wrapIndex(d)`,
the same width and the same number of slides. This holds for every width,
in particular for every positive one. The pending timers carry handles that
`setTimeout` has given out before, so that the new reset timer is the one
that expires. -/
theorem slide_restores_idle_offsets (g : BasicGallery) (d : Int) (now : Int)
    (hc : g.continuous = true) (hN : 3 ≤ g.slides.length)
    (hidle : IdleOffsets g) (hfresh : HandlesIssued g) (hd : d ≠ g.index) :
    IdleOffsets ((g.slide d none false).afterReset now) ∧
    ((g.slide d none false).afterReset now).index = g.wrapIndex d ∧
    ((g.slide d none false).afterReset now).width = g.width ∧
    ((g.slide d none false).afterReset now).slides.length = g.slides.length :=
  slide_settles g d none now hc hfresh hN hidle.1 hidle.2.1 hidle.2.2.2.2.2 hd

theorem scenario4_idle : IdleOffsets scenario4 :=
  ⟨by decide, by decide, rfl, rfl, rfl, rfl⟩

theorem slide_restores_idle_offsets_witness :
    ((scenario4.slide 1 none false).afterReset 0).index = 1 ∧
    ((scenario4.slide 1 none false).afterReset 0).slidePos.get 0 = some (-300) ∧
    ((scenario4.slide 1 none false).afterReset 0).slidePos.get 1 = some 0 ∧
    ((scenario4.slide 1 none false).afterReset 0).slidePos.get 2 = some 300 := by
  obtain ⟨⟨-, -, hcur, hprev, hnext, -⟩, hidx, hwidth, hlen⟩ :=
    slide_restores_idle_offsets scenario4 1 0 rfl (by decide) scenario4_idle
      (fun t ht => absurd ht (List.not_mem_nil t)) (by decide)
  have h1 : scenario4.wrapIndex 1 = 1 := by decide
  have hwrap : ∀ x, ((scenario4.slide 1 none false).afterReset 0).wrapIndex x =
      scenario4.wrapIndex x := fun x => wrapIndex_congr hlen x
  rw [hidx, h1] at hcur
  rw [hwrap, hidx, h1, hwidth] at hprev hnext
  exact ⟨hidx.trans h1, hprev, hcur, hnext⟩

end BasicGallery

namespace BasicGallery

/-! ### The end of a gesture -/


theorem jsnum_lt_nan (x : JSNum) : JSNum.lt x JSNum.nan = false := by
  cases x <;> rfl

theorem afterTouchend_index (g : BasicGallery) (now : Int) (start : TouchStart)
    (hstart : g.touchStartData = some start) (hns : g.isScrolling ≠ some true) :
    (g.afterTouchend now).index =
      if (g.isValidSlide (now - start.time) && !g.isPastBounds) = true then
        (if JSNum.lt g.touchDelta.x (JSNum.fin 0) = true then g.wrapIndex (g.index + 1)
         else g.wrapIndex (g.index - 1))
      else g.index := by
  cases hv : (g.isValidSlide (now - start.time) && !g.isPastBounds) <;>
    cases hl : JSNum.lt g.touchDelta.x (JSNum.fin 0) <;>
    cases hcont : g.continuous <;>
    simp only [afterTouchend, hstart, hns, hv, hl, hcont, slideChanged, if_false, if_true,
      Bool.false_eq_true, reduceCtorEq, moveSlideAtIndex_continuous, moveSlideAtIndex_index] <;>
    split_ifs <;> simp only [moveSlideAtIndex_index]

theorem wrapIndex_succ_ne_self (g : BasicGallery) (hN : 2 ≤ g.slides.length) :
    g.wrapIndex (g.index + 1) ≠ g.index := by
  have hN1 : 1 ≤ g.slides.length := by omega
  by_cases hr : 0 ≤ g.index ∧ g.index < (g.slides.length : Int)
  · have := wrapIndex_add_ne g g.index 1 (by norm_num) (by omega)
    rwa [wrapIndex_of_range g _ hr.1 hr.2] at this
  · obtain ⟨a, b⟩ := wrapIndex_bounds g (g.index + 1) hN1
    intro h; rw [h] at a b; exact hr ⟨a, b⟩

theorem wrapIndex_pred_ne_self (g : BasicGallery) (hN : 2 ≤ g.slides.length) :
    g.wrapIndex (g.index - 1) ≠ g.index := by
  have hN1 : 1 ≤ g.slides.length := by omega
  by_cases hr : 0 ≤ g.index ∧ g.index < (g.slides.length : Int)
  · have := wrapIndex_add_ne g (g.index - 1) 1 (by norm_num) (by omega)
    rw [sub_add_cancel, wrapIndex_of_range g _ hr.1 hr.2] at this
    exact fun h => this h.symm
  · obtain ⟨a, b⟩ := wrapIndex_bounds g (g.index - 1) hN1
    intro h; rw [h] at a b; exact hr ⟨a, b⟩

/-- C4: at `afterTouchend` of a session that is not vertical-locked, with a
finite `delta.x = dx`, the index changes if and only if
`((duration < 250 and |dx| > 20) or |dx| > width/2)` and not (non-continuous
and (`index = 0` and `dx > 0`, or `index = N-1` and `dx < 0`)); when it
changes, the new index is `wrapIndex(index+1)` if `dx < 0` and
`wrapIndex(index-1)` otherwise. With no move sample (`delta.x` undefined)
the index does not change. The gallery has at least one slide, at least two
in continuous mode, and a non-negative width. -/
theorem afterTouchend_commit (g : BasicGallery) (now : Int) (start : TouchStart)
    (hstart : g.touchStartData = some start) (hns : g.isScrolling ≠ some true)
    (hN : 1 ≤ g.slides.length) (hw : 0 ≤ g.width)
    (hc : g.continuous = true → 2 ≤ g.slides.length) :
    (∀ dx : ℚ, g.touchDelta.x = JSNum.fin dx →
      ((g.afterTouchend now).index ≠ g.index ↔
        ((now - start.time < 250 ∧ |dx| > 20) ∨ |dx| > g.width / 2) ∧
        ¬ (g.continuous = false ∧
            ((g.index = 0 ∧ dx > 0) ∨ (g.index = (g.slides.length : Int) - 1 ∧ dx < 0)))) ∧
      ((g.afterTouchend now).index ≠ g.index →
        (g.afterTouchend now).index =
          if dx < 0 then g.wrapIndex (g.index + 1) else g.wrapIndex (g.index - 1))) ∧
    (g.touchDelta.x = JSNum.nan → (g.afterTouchend now).index = g.index) := by
  have hidx := afterTouchend_index g now start hstart hns
  refine ⟨fun dx hdx => ?_, fun hnan => ?_⟩
  · have hvalid : g.isValidSlide (now - start.time) = true ↔
        ((now - start.time < 250 ∧ |dx| > 20) ∨ |dx| > g.width / 2) := by
      simp [isValidSlide, hdx, JSNum.abs, JSNum.gt, JSNum.lt, JSNum.div]
    have hpast : g.isPastBounds = true ↔ (g.continuous = false ∧
        ((g.index = 0 ∧ dx > 0) ∨ (g.index = (g.slides.length : Int) - 1 ∧ dx < 0))) := by
      unfold isPastBounds
      cases hcont : g.continuous <;> simp [hdx, JSNum.gt, JSNum.lt]
    have hlt : JSNum.lt g.touchDelta.x (JSNum.fin 0) = true ↔ dx < 0 := by
      simp [hdx, JSNum.lt]
    by_cases hcm : (g.isValidSlide (now - start.time) && !g.isPastBounds) = true
    · rw [if_pos hcm] at hidx
      have hv : g.isValidSlide (now - start.time) = true := by
        revert hcm; cases g.isValidSlide (now - start.time) <;> simp
      have hnp : ¬ g.isPastBounds = true := by
        revert hcm; cases g.isPastBounds <;> simp
      have hchg : (g.afterTouchend now).index ≠ g.index := by
        rw [hidx]
        by_cases h2 : 2 ≤ g.slides.length
        · split_ifs
          · exact wrapIndex_succ_ne_self g h2
          · exact wrapIndex_pred_ne_self g h2
        · -- a single slide: not continuous, and not at index 0
          have hN1 : g.slides.length = 1 := by omega
          have hnc : g.continuous = false := by
            cases hcont : g.continuous
            · rfl
            · exact absurd (hc hcont) h2
          have hdx0 : dx ≠ 0 := by
            rcases hvalid.1 hv with ⟨-, h⟩ | h
            · intro h0; rw [h0] at h; norm_num at h
            · intro h0; rw [h0] at h; simp at h; linarith
          have hi0 : g.index ≠ 0 := by
            intro hi
            apply hnp
            rw [hpast]
            refine ⟨hnc, ?_⟩
            rcases lt_or_gt_of_ne hdx0 with h | h
            · right; exact ⟨by rw [hN1, hi]; norm_num, h⟩
            · left; exact ⟨hi, h⟩
          have hwr : ∀ x, g.wrapIndex x = 0 := by
            intro x
            obtain ⟨a, b⟩ := wrapIndex_bounds g x hN
            rw [hN1] at b; omega
          split_ifs <;> rw [hwr] <;> exact fun h => hi0 h.symm
      refine ⟨⟨fun _ => ⟨hvalid.1 hv, fun h => hnp (hpast.2 h)⟩, fun _ => hchg⟩, fun _ => ?_⟩
      rw [hidx]
      by_cases hd : dx < 0
      · rw [if_pos (hlt.2 hd), if_pos hd]
      · rw [if_neg (fun h => hd (hlt.1 h)), if_neg hd]
    · rw [if_neg hcm] at hidx
      refine ⟨⟨fun h => absurd hidx h, fun ⟨h1, h2⟩ => ?_⟩, fun h => absurd hidx h⟩
      exfalso
      apply hcm
      have hv := hvalid.2 h1
      have hnp : g.isPastBounds = false := by
        cases hpb : g.isPastBounds
        · rfl
        · exact absurd (hpast.1 hpb) h2
      rw [hv, hnp]; rfl
  · rw [hidx, if_neg]
    simp [isValidSlide, hnan, JSNum.abs, JSNum.gt, jsnum_lt_nan]


theorem afterTouchend_commit_witness :
    ((scenario4.dragged (-25) 0).afterTouchend 200).index ≠ (scenario4.dragged (-25) 0).index ∧
    (¬ ((scenario4.dragged (-25) 0).afterTouchend 400).index ≠
        (scenario4.dragged (-25) 0).index) :=
  ⟨((afterTouchend_commit (scenario4.dragged (-25) 0) 200 ⟨0, 0, 0⟩ rfl (by decide) (by decide)
      (by norm_num [dragged, scenario4, atRest]) (fun _ => by decide)).1 (-25) rfl).1.2
      ⟨Or.inl ⟨by decide, by norm_num⟩, fun h => absurd h.1 (by decide)⟩,
   fun h => by
    have h2 := (((afterTouchend_commit (scenario4.dragged (-25) 0) 400 ⟨0, 0, 0⟩ rfl
      (by decide) (by decide) (by norm_num [dragged, scenario4, atRest])
      (fun _ => by decide)).1 (-25) rfl).1.1 h).1
    norm_num [dragged, scenario4, atRest] at h2⟩

end BasicGallery

namespace BasicGallery

/-! ### The slides are never added, removed or replaced -/


theorem contents_length (g : BasicGallery) : g.contents.length = g.slides.length := by
  simp [contents]

@[simp] theorem contents_mk (c : Container) (a1 : Bool) (a2 a3 a4 : Int) (a5 : Nat)
    (a6 : JSArray) (a7 : ℚ) (a8 : Int) (a9 : Option Int) (a10 : Option (Int × ℚ))
    (a11 : Bool) (a12 : Option TouchStart) (a13 : Option Bool) (a14 : TouchDelta)
    (a15 : List Timer) (a16 a17 : Nat) :
    (BasicGallery.mk c a1 a2 a3 a4 a5 a6 a7 a8 a9 a10 a11 a12 a13 a14 a15 a16 a17).contents =
      c.children.map (fun s => s.content) := rfl

@[simp] theorem contents_fold (g : BasicGallery) :
    g.container.children.map (fun s => s.content) = g.contents := rfl

theorem set_style_contents (l : List Slide) (n : Nat) (sl sl2 : Slide)
    (h : l[n]? = some sl) (hc : sl2.content = sl.content) :
    (l.set n sl2).map (fun s => s.content) = l.map (fun s => s.content) := by
  apply List.ext_getElem?
  intro k
  rw [List.map_set, List.getElem?_set]
  by_cases hk : n = k
  · subst hk
    obtain ⟨hlt, hget⟩ := List.getElem?_eq_some.1 h
    simp [hlt, hc, hget]
  · simp [hk]

@[simp] theorem translate_contents (g : BasicGallery) (i : Int) (d : JSNum) (sp : Int) :
    (g.translate i d sp).contents = g.contents := by
  unfold translate
  cases i with
  | ofNat n =>
    simp only
    cases h : g.slides[n]? with
    | none => rfl
    | some sl => exact set_style_contents _ _ _ _ h rfl
  | negSucc n => rfl

@[simp] theorem moveSlideAtIndex_contents (g : BasicGallery) (i : Int) (d : ℚ) (sp : Int) :
    (g.moveSlideAtIndex i d sp).contents = g.contents := by
  unfold moveSlideAtIndex
  exact translate_contents g i (JSNum.fin d) sp

@[simp] theorem setTimeout_contents (g : BasicGallery) (cb : Callback) (delay : Int) :
    (g.setTimeout cb delay).1.contents = g.contents := rfl

@[simp] theorem clearTimeout_contents (g : BasicGallery) (h : Int) :
    (g.clearTimeout h).contents = g.contents := rfl

@[simp] theorem resetSlide_contents (g : BasicGallery) (i : Int) (off : ℚ) (delay : Option Int) :
    (g.resetSlide i off delay).contents = g.contents := by
  unfold resetSlide
  simp only
  split_ifs <;> simp

@[simp] theorem stackLoop_contents (k : Nat) : ∀ g : BasicGallery,
    (g.stackLoop k).contents = g.contents := by
  induction k with
  | zero => intro g; rfl
  | succ k ih =>
    intro g
    simp only [stackLoop]
    rw [ih, moveSlideAtIndex_contents]
    cases h : g.slides[k]? with
    | none => rfl
    | some sl => exact set_style_contents _ _ _ _ h rfl

@[simp] theorem initializeGallery_contents (g : BasicGallery) :
    (g.initializeGallery).contents = g.contents := by
  unfold initializeGallery
  simp only
  split_ifs <;> simp

@[simp] theorem seedLoop_contents (top : Int) (dist : ℚ) (k : Nat) : ∀ g : BasicGallery,
    (g.seedLoop top dist k).contents = g.contents := by
  induction k with
  | zero => intro g; rfl
  | succ k ih =>
    intro g
    simp only [seedLoop]
    rw [ih, moveSlideAtIndex_contents]

@[simp] theorem slideFinish_contents (g : BasicGallery) (dest f speed : Int) :
    (g.slideFinish dest f speed).contents = g.contents := by
  unfold slideFinish
  simp only
  split_ifs <;> simp

@[simp] theorem slide_contents (g : BasicGallery) (d : Int) (sp : Option Int) (iw : Bool) :
    (g.slide d sp iw).contents = g.contents := by
  unfold slide
  lift_lets
  intro g1 needsDelay1 prePosition g2 speed natural_direction wrapAware direction
    directionFactor dest g3
  have h1 : g1.contents = g.contents := by
    simp only [g1]; split <;> simp
  have h2 : g2.contents = g.contents := by
    simp only [g2]; split_ifs <;> simp [h1]
  have h3 : g3.contents = g.contents := by
    simp only [g3]; split_ifs <;> simp [h2]
  split_ifs <;> simp [h2, h3]

@[simp] theorem prev_contents (g : BasicGallery) : g.prev.contents = g.contents := by
  unfold prev; split_ifs <;> simp

@[simp] theorem next_contents (g : BasicGallery) : g.next.contents = g.contents := by
  unfold next; split_ifs <;> simp

@[simp] theorem slideChanged_contents (g : BasicGallery) :
    g.slideChanged.contents = g.contents := rfl

@[simp] theorem touchstart_contents (g : BasicGallery) (ev : TouchEvent) (now : Int) :
    (g.touchstart ev now).contents = g.contents := by
  unfold touchstart
  simp only
  split <;> simp

@[simp] theorem touchmove_contents (g : BasicGallery) (ev : TouchEvent) :
    (g.touchmove ev).contents = g.contents := by
  unfold touchmove
  split_ifs
  · rfl
  · rfl
  · cases h : g.touchStartData with
    | none => rfl
    | some start =>
      simp only
      cases hs : g.isScrolling <;> simp only <;> split_ifs <;> simp

@[simp] theorem touchend_contents (g : BasicGallery) : g.touchend.contents = g.contents := by
  unfold touchend; split_ifs <;> simp

@[simp] theorem afterTouchend_contents (g : BasicGallery) (now : Int) :
    (g.afterTouchend now).contents = g.contents := by
  unfold afterTouchend
  cases h : g.touchStartData with
  | none => rfl
  | some start =>
    simp only
    split_ifs <;> simp

@[simp] theorem resize_contents (g : BasicGallery) : g.resize.contents = g.contents := by
  unfold resize; split_ifs <;> simp

@[simp] theorem runCallback_contents (g : BasicGallery) (now : Int) (cb : Callback) :
    (g.runCallback now cb).contents = g.contents := by
  cases cb <;> simp [runCallback]

@[simp] theorem fireTimer_contents (g : BasicGallery) (h now : Int) :
    (g.fireTimer h now).contents = g.contents := by
  unfold fireTimer
  split <;> simp

theorem step_contents (g : BasicGallery) (op : Op) : (g.step op).contents = g.contents := by
  cases op <;> simp [step]

end BasicGallery

namespace BasicGallery

/-! ### The constructor -/


theorem initializeGallery_continuous (g : BasicGallery) :
    (g.initializeGallery).continuous = g.continuous := by
  unfold initializeGallery
  lift_lets
  intro g1 g2
  have h2 : g2.continuous = g.continuous :=
    (stackLoop_spec g1.slides.length g1 le_rfl).1.continuous
  split_ifs <;> simp [h2]

theorem initializeGallery_index (g : BasicGallery) :
    (g.initializeGallery).index = g.index := by
  unfold initializeGallery
  lift_lets
  intro g1 g2
  have h2 : g2.index = g.index :=
    (stackLoop_spec g1.slides.length g1 le_rfl).1.index
  split_ifs <;> simp [h2]

/-- The children of the container once the constructor has cloned what it
clones: for exactly two slides in continuous mode, a copy of each. -/
theorem construct_spec (c : Container) (o : Option Options) :
    (construct c o).continuous =
      (if c.children.length < 2 then false
       else (match (o.getD ⟨none, none, none⟩).continuous with
         | some b => b
         | none => true)) ∧
    (construct c o).index =
      (parseInt ((o.getD ⟨none, none, none⟩).startSlide.getD 0)).getD 0 ∧
    (construct c o).contents =
      (if ((construct c o).continuous && decide (c.children.length < 3)) = true then
        (c.children ++ c.children.take 2).map (fun s => s.content)
       else c.children.map (fun s => s.content)) := by
  unfold construct
  lift_lets
  intro opts startSlide index speed continuous0 length continuous1 container1 g0 g1
  have hc1 : g1.continuous = continuous1 := initializeGallery_continuous g0
  have hi1 : g1.index = index := initializeGallery_index g0
  have hk1 : g1.contents = container1.children.map (fun s => s.content) :=
    initializeGallery_contents g0
  refine ⟨hc1, hi1, ?_⟩
  show g1.contents = _
  rw [hk1]
  show _ = if (g1.continuous && _) = true then _ else _
  rw [hc1]
  by_cases hcl : (continuous1 && decide (c.children.length < 3)) = true
  · rw [if_pos hcl]
    simp only [container1, hcl, if_true]
    have h2 : 2 ≤ c.children.length := by
      by_contra hlt
      have : continuous1 = false := by simp only [continuous1]; rw [if_pos (by omega)]
      rw [this] at hcl; simp at hcl
    have h3 : c.children.length < 3 := by
      revert hcl; cases continuous1 <;> simp
    match hch : c.children with
    | [] => rw [hch] at h2; simp at h2
    | [_] => rw [hch] at h2; simp at h2
    | [a, b] => simp
    | _ :: _ :: _ :: _ => rw [hch] at h3; simp only [List.length_cons] at h3; omega
  · rw [if_neg hcl]
    simp only [container1, hcl]
    rfl

end BasicGallery

namespace BasicGallery

/-! ### Out-of-range writes, boundaries, construction -/


/-- C5 (the code at the failing input): on a three-slide gallery,
`moveSlideAtIndex(3, 300, 300)` leaves the slides alone (`translate` returns
early) but still writes `slidePos[3]`, so the offsets array grows from
length 3 to length 4; `afterTouchend` makes exactly this call after a tap on
the last slide of a non-continuous gallery. -/
theorem moveSlideAtIndex_out_of_range_writes :
    linear3End.slidePos.length = 3 ∧
    (linear3End.moveSlideAtIndex 3 300 300).slides = linear3End.slides ∧
    (linear3End.moveSlideAtIndex 3 300 300).slidePos.length = 4 ∧
    (linear3End.moveSlideAtIndex 3 300 300).slidePos.get 3 = some 300 ∧
    ((linear3End.dragged 0 0).afterTouchend 100).slidePos.length = 4 := by
  refine ⟨rfl, rfl, rfl, rfl, ?_⟩
  have hidx : ((linear3End.dragged 0 0).afterTouchend 100) =
      ((((linear3End.dragged 0 0).moveSlideAtIndex 2 0 300).moveSlideAtIndex 1 (-300) 0
        ).moveSlideAtIndex 3 300 300).slideChanged := by
    simp [afterTouchend, dragged, linear3End, atRest, isValidSlide, isPastBounds, JSNum.lt,
      JSNum.gt, JSNum.abs, JSNum.div, slides, freshSlide]
    norm_num
  rw [hidx]
  rfl

/-- C6: in non-continuous mode `prev()` at index 0 and `next()` at index
`N-1` return the state unchanged: index, offsets, timers and the count of
`slideChanged` calls all stay as they are. -/
theorem prev_next_noop_at_boundary (g : BasicGallery) (hc : g.continuous = false) :
    (g.index = 0 → g.prev = g) ∧
    (g.index = (g.slides.length : Int) - 1 → g.next = g) := by
  constructor
  · intro h; simp [prev, hc, h]
  · intro h; simp [next, hc, h]

theorem prev_next_noop_at_boundary_witness :
    linear3.prev = linear3 ∧ linear3End.next = linear3End :=
  ⟨(prev_next_noop_at_boundary linear3 rfl).1 rfl,
   (prev_next_noop_at_boundary linear3End rfl).2 (by decide)⟩



/-- C7 (counterexample): constructed with `continuous: true` over a container
with exactly one slide, the gallery does not have three slides. -/
theorem construct_single_continuous_not_cloned :
    ¬ ((construct (single (freshSlide 7) 300) (some ⟨none, some true, none⟩)).slides.length = 3) := by
  decide

/-- C7 (amended): constructed over a container with exactly one slide,
whatever the options, the gallery has `continuous` forced to false and its
slide collection is that one slide: nothing is cloned. -/
theorem construct_single_not_continuous (c : Container) (a : Slide) (o : Option Options)
    (hc : c.children = [a]) :
    (construct c o).continuous = false ∧ (construct c o).slides.length = 1 ∧
      (construct c o).contents = [a.content] := by
  obtain ⟨h1, -, h3⟩ := construct_spec c o
  have hcont : (construct c o).continuous = false := by
    rw [h1, hc]; simp
  have hk : (construct c o).contents = [a.content] := by
    rw [h3, hcont, hc]; simp
  refine ⟨hcont, ?_, hk⟩
  rw [← contents_length, hk]; rfl

theorem construct_single_not_continuous_witness :
    (construct (single (freshSlide 7) 300) (some ⟨none, some true, none⟩)).continuous = false ∧
    (construct (single (freshSlide 7) 300) (some ⟨none, some true, none⟩)).slides.length = 1 ∧
    (construct (single (freshSlide 7) 300) (some ⟨none, some true, none⟩)).contents = [7] :=
  construct_single_not_continuous (single (freshSlide 7) 300) (freshSlide 7)
    (some ⟨none, some true, none⟩) rfl

/-- C8: after construction, continuous mode implies at least three slides, and
then `wrapIndex(index-1)`, `index` and `wrapIndex(index+1)` are pairwise
distinct; a container `[a, b]` in continuous mode becomes
`[a, b, copy of a, copy of b]`; a container with fewer than two slides gets
`continuous` forced to false and keeps its slides; and no operation on a
constructed gallery changes the slides (their number and their contents). -/
theorem construct_continuous_three_slides :
    (∀ (c : Container) (o : Option Options), (construct c o).continuous = true →
      3 ≤ (construct c o).slides.length ∧
      (construct c o).wrapIndex ((construct c o).index - 1) ≠ (construct c o).index ∧
      (construct c o).wrapIndex ((construct c o).index + 1) ≠ (construct c o).index ∧
      (construct c o).wrapIndex ((construct c o).index - 1) ≠
        (construct c o).wrapIndex ((construct c o).index + 1)) ∧
    (∀ (c : Container) (a b : Slide) (o : Option Options), c.children = [a, b] →
      (o.getD ⟨none, none, none⟩).continuous ≠ some false →
      (construct c o).continuous = true ∧
      (construct c o).contents = [a.content, b.content, a.content, b.content]) ∧
    (∀ (c : Container) (o : Option Options), c.children.length < 2 →
      (construct c o).continuous = false ∧
      (construct c o).contents = c.children.map (fun s => s.content)) ∧
    (∀ (g : BasicGallery) (op : Op),
      (g.step op).slides.length = g.slides.length ∧ (g.step op).contents = g.contents) := by
  refine ⟨fun c o hcont => ?_, fun c a b o hc ho => ?_, fun c o hlen => ?_, fun g op => ?_⟩
  · obtain ⟨h1, -, h3⟩ := construct_spec c o
    have h2 : 2 ≤ c.children.length := by
      by_contra hlt
      rw [h1, if_pos (by omega)] at hcont
      exact absurd hcont (by decide)
    have hN : 3 ≤ (construct c o).slides.length := by
      rw [← contents_length, h3, hcont]
      by_cases h : c.children.length < 3
      · simp [h]; omega
      · simp [h]; omega
    exact ⟨hN, wrapIndex_pred_ne_self _ (by omega), wrapIndex_succ_ne_self _ (by omega),
      wrap_neighbours_ne _ _ hN⟩
  · obtain ⟨h1, -, h3⟩ := construct_spec c o
    have hcont : (construct c o).continuous = true := by
      rw [h1, hc]
      simp only [List.length_cons, List.length_nil]
      rw [if_neg (by omega)]
      revert ho
      cases (o.getD ⟨none, none, none⟩).continuous with
      | none => intro _; rfl
      | some v => cases v <;> simp
    refine ⟨hcont, ?_⟩
    rw [h3, hcont, hc]; simp
  · obtain ⟨h1, -, h3⟩ := construct_spec c o
    have hcont : (construct c o).continuous = false := by
      rw [h1, if_pos hlen]
    refine ⟨hcont, ?_⟩
    rw [h3, hcont]; simp
  · have h := step_contents g op
    refine ⟨?_, h⟩
    rw [← contents_length, h, contents_length]

theorem construct_continuous_three_slides_witness :
    (construct ⟨[freshSlide 1, freshSlide 2], 300, 300, false⟩ none).continuous = true ∧
    (construct ⟨[freshSlide 1, freshSlide 2], 300, 300, false⟩ none).contents = [1, 2, 1, 2] ∧
    3 ≤ (construct ⟨[freshSlide 1, freshSlide 2], 300, 300, false⟩ none).slides.length :=
  ⟨(construct_continuous_three_slides.2.1 ⟨[freshSlide 1, freshSlide 2], 300, 300, false⟩
      (freshSlide 1) (freshSlide 2) none rfl (by decide)).1,
   (construct_continuous_three_slides.2.1 ⟨[freshSlide 1, freshSlide 2], 300, 300, false⟩
      (freshSlide 1) (freshSlide 2) none rfl (by decide)).2,
   (construct_continuous_three_slides.1 ⟨[freshSlide 1, freshSlide 2], 300, 300, false⟩ none
      (construct_continuous_three_slides.2.1 ⟨[freshSlide 1, freshSlide 2], 300, 300, false⟩
        (freshSlide 1) (freshSlide 2) none rfl (by decide)).1).1⟩

end BasicGallery

namespace BasicGallery

/-! ### Drag resistance and the vertical lock -/


@[simp] theorem translate_touchDelta (g : BasicGallery) (i : Int) (d : JSNum) (sp : Int) :
    (g.translate i d sp).touchDelta = g.touchDelta := by
  obtain ⟨cs, -, h⟩ := translate_eq g i d sp
  rw [h]

theorem resisted_bounds (w d1 d2 : ℚ) (hw : 0 < w) (h1 : 0 < d1) (h12 : d1 < d2) :
    0 < d1 / (d1 / w + 1) ∧ d1 / (d1 / w + 1) < d2 / (d2 / w + 1) ∧
      d2 / (d2 / w + 1) < d2 ∧ d1 / (d1 / w + 1) < w ∧ d2 / (d2 / w + 1) < w := by
  have h2 : 0 < d2 := lt_trans h1 h12
  have p1 : 0 < d1 / w := div_pos h1 hw
  have p2 : 0 < d2 / w := div_pos h2 hw
  have q1 : 0 < d1 / w + 1 := by linarith
  have q2 : 0 < d2 / w + 1 := by linarith
  have e1 : w * (d1 / w) = d1 := by field_simp
  have e2 : w * (d2 / w) = d2 := by field_simp
  refine ⟨div_pos h1 q1, ?_, ?_, ?_, ?_⟩
  · rw [div_lt_div_iff₀ q1 q2]
    have e3 : d1 * (d2 / w) = d2 * (d1 / w) := by field_simp; ring
    nlinarith
  · rw [div_lt_iff₀ q2]; nlinarith
  · rw [div_lt_iff₀ q1]; nlinarith
  · rw [div_lt_iff₀ q2]; nlinarith

theorem touchmove_deltaX (g : BasicGallery) (start : TouchStart) (x y : ℚ)
    (hv : g.validTouchEvent = true) (hstart : g.touchStartData = some start)
    (hns : g.isScrolling = some false) (hnc : g.continuous = false) :
    (g.touchmove ⟨⟨x, y⟩, [], none⟩).touchDelta.x =
      ({ g with touchDelta := ⟨JSNum.fin (x - start.x), JSNum.fin (y - start.y)⟩ } :
        BasicGallery).resistedDelta (JSNum.fin (x - start.x)) := by
  unfold touchmove
  simp [hv, hstart, hns, hnc, notOneFinger]

theorem resistedDelta_first (g : BasicGallery) (d : ℚ) (hw : 0 < g.width) (hd : 0 < d)
    (hi : g.index = 0) :
    g.resistedDelta (JSNum.fin d) = JSNum.fin (d / (d / g.width + 1)) := by
  have hq : d / g.width + 1 ≠ 0 := by
    have := div_pos hd hw; linarith
  have hcond : ((decide (g.index = 0) && JSNum.gt (JSNum.fin d) (JSNum.fin 0)) ||
      (decide (g.index = (g.slides.length : Int) - 1) &&
        JSNum.lt (JSNum.fin d) (JSNum.fin 0))) = true := by
    simp [hi, JSNum.gt, JSNum.lt, hd]
  unfold resistedDelta
  rw [if_pos hcond]
  simp [JSNum.div, JSNum.abs, JSNum.add, ne_of_gt hw, abs_of_pos hd, hq]

theorem resistedDelta_last (g : BasicGallery) (d : ℚ) (hw : 0 < g.width) (hd : 0 < d)
    (hi : g.index = (g.slides.length : Int) - 1) :
    g.resistedDelta (JSNum.fin (-d)) = JSNum.fin (-(d / (d / g.width + 1))) := by
  have hq : d / g.width + 1 ≠ 0 := by
    have := div_pos hd hw; linarith
  have hcond : ((decide (g.index = 0) && JSNum.gt (JSNum.fin (-d)) (JSNum.fin 0)) ||
      (decide (g.index = (g.slides.length : Int) - 1) &&
        JSNum.lt (JSNum.fin (-d)) (JSNum.fin 0))) = true := by
    simp [hi, JSNum.gt, JSNum.lt, hd]
  unfold resistedDelta
  rw [if_pos hcond]
  simp [JSNum.div, JSNum.abs, JSNum.add, ne_of_gt hw, abs_of_pos hd, hq, neg_div]

/-- C9: in non-continuous mode, in a horizontal session, with width `w > 0`
and drag magnitudes `0 < d1 < d2`: at index 0 a move `d` to the right stores
`delta.x = d / (d/w + 1)`, at index `N-1` a move `d` to the left stores
`delta.x = -(d / (d/w + 1))`, and the resisted magnitudes satisfy
`0 < resisted(d1) < resisted(d2) < d2`, `resisted(d1) < w` and
`resisted(d2) < w`. -/
theorem touchmove_resistance (g : BasicGallery) (start : TouchStart) (y1 y2 d1 d2 : ℚ)
    (hv : g.validTouchEvent = true) (hstart : g.touchStartData = some start)
    (hns : g.isScrolling = some false) (hnc : g.continuous = false)
    (hw : 0 < g.width) (h1 : 0 < d1) (h12 : d1 < d2) :
    (g.index = 0 →
      (g.touchmove ⟨⟨start.x + d1, y1⟩, [], none⟩).touchDelta.x =
        JSNum.fin (d1 / (d1 / g.width + 1)) ∧
      (g.touchmove ⟨⟨start.x + d2, y2⟩, [], none⟩).touchDelta.x =
        JSNum.fin (d2 / (d2 / g.width + 1))) ∧
    (g.index = (g.slides.length : Int) - 1 →
      (g.touchmove ⟨⟨start.x - d1, y1⟩, [], none⟩).touchDelta.x =
        JSNum.fin (-(d1 / (d1 / g.width + 1))) ∧
      (g.touchmove ⟨⟨start.x - d2, y2⟩, [], none⟩).touchDelta.x =
        JSNum.fin (-(d2 / (d2 / g.width + 1)))) ∧
    0 < d1 / (d1 / g.width + 1) ∧
    d1 / (d1 / g.width + 1) < d2 / (d2 / g.width + 1) ∧
    d2 / (d2 / g.width + 1) < d2 ∧
    d1 / (d1 / g.width + 1) < g.width ∧ d2 / (d2 / g.width + 1) < g.width := by
  have h2 : 0 < d2 := lt_trans h1 h12
  have right : ∀ (d y : ℚ), 0 < d → g.index = 0 →
      (g.touchmove ⟨⟨start.x + d, y⟩, [], none⟩).touchDelta.x =
        JSNum.fin (d / (d / g.width + 1)) := by
    intro d y hd hi
    rw [touchmove_deltaX g start _ y hv hstart hns hnc]
    have e : start.x + d - start.x = d := by ring
    rw [e]
    exact resistedDelta_first _ d hw hd hi
  have left : ∀ (d y : ℚ), 0 < d → g.index = (g.slides.length : Int) - 1 →
      (g.touchmove ⟨⟨start.x - d, y⟩, [], none⟩).touchDelta.x =
        JSNum.fin (-(d / (d / g.width + 1))) := by
    intro d y hd hi
    rw [touchmove_deltaX g start _ y hv hstart hns hnc]
    have e : start.x - d - start.x = -d := by ring
    rw [e]
    exact resistedDelta_last _ d hw hd hi
  exact ⟨fun hi => ⟨right d1 y1 h1 hi, right d2 y2 h2 hi⟩,
    fun hi => ⟨left d1 y1 h1 hi, left d2 y2 h2 hi⟩, resisted_bounds g.width d1 d2 hw h1 h12⟩

theorem touchmove_resistance_witness :
    ((linear3.inSession (some false)).touchmove ⟨⟨0 + 100, 0⟩, [], none⟩).touchDelta.x =
      JSNum.fin (100 / (100 / 300 + 1)) ∧
    (100 : ℚ) / (100 / 300 + 1) < 200 / (200 / 300 + 1) ∧
    (200 : ℚ) / (200 / 300 + 1) < 200 :=
  ⟨((touchmove_resistance (linear3.inSession (some false)) ⟨0, 0, 0⟩ 0 0 100 200 rfl rfl rfl rfl
      (by norm_num [inSession, linear3, atRest]) (by norm_num) (by norm_num)).1 rfl).1,
   (touchmove_resistance (linear3.inSession (some false)) ⟨0, 0, 0⟩ 0 0 100 200 rfl rfl rfl rfl
      (by norm_num [inSession, linear3, atRest]) (by norm_num) (by norm_num)).2.2.2.1,
   (touchmove_resistance (linear3.inSession (some false)) ⟨0, 0, 0⟩ 0 0 100 200 rfl rfl rfl rfl
      (by norm_num [inSession, linear3, atRest]) (by norm_num) (by norm_num)).2.2.2.2.1⟩



theorem SameLayout.unchanged (g : BasicGallery) : SameLayout g g := ⟨rfl, rfl, rfl, rfl, rfl, rfl⟩

theorem SameLayout.followedBy {a b c : BasicGallery} (h1 : SameLayout a b) (h2 : SameLayout b c) :
    SameLayout a c :=
  ⟨h2.index.trans h1.index, h2.slidePos.trans h1.slidePos, h2.slides.trans h1.slides,
   h2.slideChangedCalls.trans h1.slideChangedCalls, h2.isScrolling.trans h1.isScrolling,
   h2.touchStartData.trans h1.touchStartData⟩

theorem touchmove_locked (g : BasicGallery) (ev : TouchEvent)
    (hs : g.isScrolling = some true) : SameLayout g (g.touchmove ev) := by
  unfold touchmove
  split_ifs
  · exact SameLayout.unchanged g
  · exact SameLayout.unchanged g
  · cases h : g.touchStartData with
    | none => exact SameLayout.unchanged g
    | some start =>
      simp only [hs, if_true]
      exact ⟨rfl, rfl, rfl, rfl, hs.symm ▸ rfl, h.symm ▸ rfl⟩

theorem touchmove_first_vertical (g : BasicGallery) (start : TouchStart) (first : TouchEvent)
    (hv : g.validTouchEvent = true) (hstart : g.touchStartData = some start)
    (hun : g.isScrolling = none) (hone : first.others = [])
    (hsc : ∀ sc, first.scale = some sc → sc = 0 ∨ sc = 1)
    (hdy : |first.touch0.pageX - start.x| < |first.touch0.pageY - start.y|) :
    (g.touchmove first).isScrolling = some true ∧ (g.touchmove first).index = g.index ∧
    (g.touchmove first).slidePos = g.slidePos ∧ (g.touchmove first).slides = g.slides ∧
    (g.touchmove first).slideChangedCalls = g.slideChangedCalls ∧
    (g.touchmove first).touchStartData = g.touchStartData := by
  have hpinch : notOneFinger first = false := by
    unfold notOneFinger
    cases h : first.scale with
    | none => simp [hone]
    | some sc =>
      rcases hsc sc h with h0 | h1
      · simp [h0, hone]
      · simp [h1, hone]
  unfold touchmove
  simp [hv, hpinch, hstart, hun, JSNum.abs, JSNum.lt, hdy]
  rfl

theorem foldl_touchmove_locked (later : List TouchEvent) : ∀ (g : BasicGallery),
    g.isScrolling = some true → SameLayout g (later.foldl touchmove g) := by
  induction later with
  | nil => intro g _; exact SameLayout.unchanged g
  | cons ev rest ih =>
    intro g hs
    have h1 := touchmove_locked g ev hs
    have h2 := ih (g.touchmove ev) (h1.isScrolling.trans hs)
    exact h1.followedBy h2

theorem touchend_sameLayout (g : BasicGallery) : SameLayout g g.touchend := by
  unfold touchend
  split_ifs
  · exact SameLayout.unchanged g
  · exact ⟨rfl, rfl, rfl, rfl, rfl, rfl⟩

theorem afterTouchend_locked (g : BasicGallery) (now : Int)
    (hs : g.isScrolling = some true) : g.afterTouchend now = g := by
  unfold afterTouchend
  cases h : g.touchStartData with
  | none => rfl
  | some start => simp [hs]

/-- C10: in a session whose first single-touch move sample has `|dy| > |dx|`,
`isScrolling` becomes true, and every later `touchmove`, whatever its
sample, and then `touchend` and `afterTouchend` leave the index, the
`slidePos` array, every slide (so every rendered left offset) and the count
of `slideChanged` calls as they were before the first sample. -/
theorem vertical_lock_exclusive (g : BasicGallery) (start : TouchStart) (first : TouchEvent)
    (later : List TouchEvent) (now : Int)
    (hv : g.validTouchEvent = true) (hstart : g.touchStartData = some start)
    (hun : g.isScrolling = none) (hone : first.others = [])
    (hsc : ∀ sc, first.scale = some sc → sc = 0 ∨ sc = 1)
    (hdy : |first.touch0.pageX - start.x| < |first.touch0.pageY - start.y|) :
    (g.touchmove first).isScrolling = some true ∧
    ((later.foldl touchmove (g.touchmove first)).index = g.index ∧
     (later.foldl touchmove (g.touchmove first)).slidePos = g.slidePos ∧
     (later.foldl touchmove (g.touchmove first)).slides = g.slides ∧
     (later.foldl touchmove (g.touchmove first)).slideChangedCalls = g.slideChangedCalls) ∧
    ((((later.foldl touchmove (g.touchmove first)).touchend).afterTouchend now).index = g.index ∧
     (((later.foldl touchmove (g.touchmove first)).touchend).afterTouchend now).slidePos =
        g.slidePos ∧
     (((later.foldl touchmove (g.touchmove first)).touchend).afterTouchend now).slides =
        g.slides ∧
     (((later.foldl touchmove (g.touchmove first)).touchend).afterTouchend now).slideChangedCalls =
        g.slideChangedCalls) := by
  obtain ⟨f1, f2, f3, f4, f5, f6⟩ :=
    touchmove_first_vertical g start first hv hstart hun hone hsc hdy
  have h2 := foldl_touchmove_locked later (g.touchmove first) f1
  have h3 := touchend_sameLayout (later.foldl touchmove (g.touchmove first))
  have h23 := h2.followedBy h3
  have hs : ((later.foldl touchmove (g.touchmove first)).touchend).isScrolling = some true :=
    h23.isScrolling.trans f1
  rw [afterTouchend_locked _ now hs]
  exact ⟨f1, ⟨h2.index.trans f2, h2.slidePos.trans f3, h2.slides.trans f4,
    h2.slideChangedCalls.trans f5⟩, h23.index.trans f2, h23.slidePos.trans f3,
    h23.slides.trans f4, h23.slideChangedCalls.trans f5⟩


theorem vertical_lock_exclusive_witness :
    ((scenario4.inSession none).touchmove ⟨⟨5, 40⟩, [], none⟩).isScrolling = some true ∧
    ((([⟨⟨-200, 41⟩, [], none⟩].foldl touchmove
        ((scenario4.inSession none).touchmove ⟨⟨5, 40⟩, [], none⟩)).touchend).afterTouchend
          100).index = 0 :=
  ⟨(vertical_lock_exclusive (scenario4.inSession none) ⟨0, 0, 0⟩ ⟨⟨5, 40⟩, [], none⟩
      [⟨⟨-200, 41⟩, [], none⟩] 100 rfl rfl rfl rfl (fun sc h => absurd h (by simp))
      (by norm_num)).1,
   (vertical_lock_exclusive (scenario4.inSession none) ⟨0, 0, 0⟩ ⟨⟨5, 40⟩, [], none⟩
      [⟨⟨-200, 41⟩, [], none⟩] 100 rfl rfl rfl rfl (fun sc h => absurd h (by simp))
      (by norm_num)).2.2.1⟩

end BasicGallery

namespace BasicGallery

/-! ### Same-index calls, the reset slot and the resize slot -/


/-- C14: `slide(d, speed, ignoreWrap)` with `d` equal to the current index
returns the state unchanged, for every speed and `ignoreWrap`: index,
offsets, timers (a pending reset included, which is not fired) and the
`slideChanged` count all stay as they are. -/
theorem slide_same_index_noop (g : BasicGallery) (slideSpeed : Option Int) (ignoreWrap : Bool) :
    g.slide g.index slideSpeed ignoreWrap = g := by
  unfold slide
  simp

/-- C11 (counterexample): with the reset of slide 2 pending,
`resetSlide(3, 300, 300)` writes `slidePos[3] = 300` at once, drops the bound
reset and removes the pending reset timer. -/
theorem resetSlide_pending_not_rejected :
    midTransition4.resetPending = true ∧
    midTransition4.slidePos.get 3 = some (-300) ∧
    (midTransition4.resetSlide 3 300 (some 300)).slidePos.get 3 = some 300 ∧
    (midTransition4.resetSlide 3 300 (some 300)).boundResetSlide = none ∧
    (midTransition4.resetSlide 3 300 (some 300)).timers = [⟨2, 10, Callback.slideChanged⟩] := by
  refine ⟨rfl, rfl, rfl, rfl, ?_⟩
  decide

/-- What `resetSlide` does while a reset timer is pending. -/
theorem resetSlide_when_pending (g : BasicGallery) (index : Int) (offset : ℚ)
    (delay : Option Int) (h : Int) (hts : g.resetSlideTimeout = some h) (hpos : 0 < h) :
    (g.resetSlide index offset delay).timers =
      g.timers.filter (fun t => decide (t.handle ≠ h)) ∧
    (g.resetSlide index offset delay).nextHandle = g.nextHandle ∧
    (g.resetSlide index offset delay).resetSlideTimeout = some (-1) ∧
    (g.resetSlide index offset delay).boundResetSlide = none ∧
    (g.resetSlide index offset delay).slidePos = g.slidePos.set index offset ∧
    (g.resetSlide index offset delay).index = g.index := by
  have hneg : ¬ h < 0 := by omega
  have hpend : g.resetPending = true := by simp [resetPending, hts, hpos]
  unfold resetSlide
  cases delay <;>
    simp [hts, hneg, hpend, clearTimeout, moveSlideAtIndex_slidePos]


/-- C11 (amended): `resetSlide(index, offset, delay)` called, with any delay,
while a reset timer is pending schedules no new timer: it cancels the pending
timer, clears the bound reset and the timer slot, and applies the new
`(index, offset)` to `slidePos` at once. -/
theorem resetSlide_pending_applies (g : BasicGallery) (index : Int) (offset : ℚ)
    (delay : Option Int) (h : Int) (hts : g.resetSlideTimeout = some h) (hpos : 0 < h) :
    (g.resetSlide index offset delay).timers =
      g.timers.filter (fun t => decide (t.handle ≠ h)) ∧
    (g.resetSlide index offset delay).nextHandle = g.nextHandle ∧
    (g.resetSlide index offset delay).resetSlideTimeout = some (-1) ∧
    (g.resetSlide index offset delay).boundResetSlide = none ∧
    (g.resetSlide index offset delay).slidePos = g.slidePos.set index offset ∧
    (g.resetSlide index offset delay).index = g.index :=
  resetSlide_when_pending g index offset delay h hts hpos

theorem resetSlide_pending_applies_witness :
    (midTransition4.resetSlide 3 300 (some 300)).timers =
      midTransition4.timers.filter (fun t => decide (t.handle ≠ 1)) ∧
    (midTransition4.resetSlide 3 300 (some 300)).slidePos = midTransition4.slidePos.set 3 300 :=
  ⟨(resetSlide_pending_applies midTransition4 3 300 (some 300) 1 rfl (by decide)).1,
   (resetSlide_pending_applies midTransition4 3 300 (some 300) 1 rfl (by decide)).2.2.2.2.1⟩



theorem initializeGallery_timing (g : BasicGallery) :
    (g.initializeGallery).resizeTimeout = -1 ∧
    (g.initializeGallery).timers = g.timers ∧
    (g.initializeGallery).nextHandle = g.nextHandle := by
  unfold initializeGallery
  lift_lets
  intro g1 g2
  have s := (stackLoop_spec g1.slides.length g1 le_rfl).1
  have h1 : g2.resizeTimeout = -1 := s.resizeTimeout
  have h2 : g2.timers = g.timers := s.timers
  have h3 : g2.nextHandle = g.nextHandle := s.nextHandle
  split_ifs <;> simp [h1, h2, h3]

theorem filter_issued (ts : List Timer) (n : Nat)
    (hfresh : ∀ x ∈ ts, x.handle ≤ (n : Int)) :
    ts.filter (fun t => decide (t.handle ≠ (n : Int) + 1)) = ts := by
  apply List.filter_eq_self.2
  intro x hx
  have := hfresh x hx
  simp; omega

theorem resize_of_taken (g : BasicGallery) (h : ¬ g.resizeTimeout < 0) : g.resize = g := by
  unfold resize; rw [if_neg h]

/-- One resize on a state whose resize slot is free schedules one relayout;
further resizes change nothing; the relayout frees the slot. -/
theorem resize_schedules_once (g : BasicGallery) (k : Nat) (now : Int)
    (hr : g.resizeTimeout < 0) (hfresh : HandlesIssued g) :
    (g.resize).timers = g.timers ++ [⟨(g.nextHandle : Int) + 1, 100, Callback.initializeGallery⟩] ∧
    (g.resize).resizeTimeout = (g.nextHandle : Int) + 1 ∧
    (resize^[k] g.resize) = g.resize ∧
    ((g.resize).fireTimer ((g.nextHandle : Int) + 1) now).resizeTimeout = -1 ∧
    ((g.resize).fireTimer ((g.nextHandle : Int) + 1) now).timers = g.timers ∧
    ((g.resize).fireTimer ((g.nextHandle : Int) + 1) now).nextHandle = g.nextHandle + 1 := by
  have h1 : (g.resize).timers =
      g.timers ++ [⟨(g.nextHandle : Int) + 1, 100, Callback.initializeGallery⟩] := by
    simp [resize, hr, setTimeout]
  have h2 : (g.resize).resizeTimeout = (g.nextHandle : Int) + 1 := by
    simp [resize, hr, setTimeout]
  have h3 : (g.resize).nextHandle = g.nextHandle + 1 := by
    simp [resize, hr, setTimeout]
  have hfix : (g.resize).resize = g.resize := by
    exact resize_of_taken _ (by rw [h2]; omega)
  have hfind : (g.resize).timers.find? (fun t => decide (t.handle = (g.nextHandle : Int) + 1)) =
      some ⟨(g.nextHandle : Int) + 1, 100, Callback.initializeGallery⟩ := by
    rw [h1]; exact find_issued g.timers g.nextHandle _ [] hfresh rfl
  have hfire : (g.resize).fireTimer ((g.nextHandle : Int) + 1) now =
      ((g.resize).clearTimeout ((g.nextHandle : Int) + 1)).initializeGallery := by
    unfold fireTimer
    rw [hfind]
    rfl
  obtain ⟨i1, i2, i3⟩ := initializeGallery_timing ((g.resize).clearTimeout ((g.nextHandle : Int) + 1))
  refine ⟨h1, h2, Function.iterate_fixed hfix k, ?_, ?_, ?_⟩
  · rw [hfire, i1]
  · rw [hfire, i2]
    show List.filter _ (g.resize).timers = _
    rw [h1, List.filter_append, filter_issued g.timers g.nextHandle hfresh]
    simp
  · rw [hfire, i3]
    exact h3


/-- C12: after an `initialize()`, the first resize event schedules exactly one
relayout (one timer, 100 ms, running `initialize`); any number `k` of further
resize events before that timer expires leave the state unchanged; when the
timer expires the relayout runs, nothing is left pending from it, and the
next resize event schedules a relayout again. Pending timers carry handles
that `setTimeout` has given out before. -/
theorem resize_debounced (g : BasicGallery) (k : Nat) (now : Int) (hfresh : HandlesIssued g) :
    ((g.initializeGallery).resize).timers =
      (g.initializeGallery).timers ++
        [⟨((g.initializeGallery).nextHandle : Int) + 1, 100, Callback.initializeGallery⟩] ∧
    (resize^[k] (g.initializeGallery).resize) = (g.initializeGallery).resize ∧
    (((g.initializeGallery).resize).fireTimer
        (((g.initializeGallery).nextHandle : Int) + 1) now).resizeTimeout = -1 ∧
    (((g.initializeGallery).resize).fireTimer
        (((g.initializeGallery).nextHandle : Int) + 1) now).timers =
      (g.initializeGallery).timers ∧
    ((((g.initializeGallery).resize).fireTimer
        (((g.initializeGallery).nextHandle : Int) + 1) now).resize).timers =
      (g.initializeGallery).timers ++
        [⟨((g.initializeGallery).nextHandle : Int) + 1 + 1, 100, Callback.initializeGallery⟩] := by
  obtain ⟨i1, i2, i3⟩ := initializeGallery_timing g
  have hfresh0 : HandlesIssued g.initializeGallery := by
    intro t ht
    rw [i2] at ht
    rw [i3]
    exact hfresh t ht
  obtain ⟨a1, -, a3, a4, a5, a6⟩ :=
    resize_schedules_once g.initializeGallery k now (by rw [i1]; decide) hfresh0
  have hfresh1 : HandlesIssued (((g.initializeGallery).resize).fireTimer
      (((g.initializeGallery).nextHandle : Int) + 1) now) := by
    intro t ht
    rw [a5] at ht
    rw [a6]
    have := hfresh0 t ht
    push_cast
    omega
  obtain ⟨b1, -⟩ := resize_schedules_once _ 0 now (by rw [a4]; decide) hfresh1
  refine ⟨a1, a3, a4, a5, ?_⟩
  rw [b1, a5, a6]
  push_cast
  rfl

theorem resize_debounced_witness :
    (resize^[4] (scenario4.initializeGallery).resize) = (scenario4.initializeGallery).resize ∧
    (((scenario4.initializeGallery).resize).fireTimer
        (((scenario4.initializeGallery).nextHandle : Int) + 1) 100).resizeTimeout = -1 :=
  ⟨(resize_debounced scenario4 4 100 (fun t ht => absurd ht (List.not_mem_nil t))).2.1,
   (resize_debounced scenario4 4 100 (fun t ht => absurd ht (List.not_mem_nil t))).2.2.1⟩

end BasicGallery

namespace BasicGallery

/-! ### Notification on gesture end, and the start slide -/


theorem afterTouchend_notifies (g : BasicGallery) (now : Int) (start : TouchStart)
    (hstart : g.touchStartData = some start) (hns : g.isScrolling ≠ some true) :
    (g.afterTouchend now).slideChangedCalls = g.slideChangedCalls + 1 := by
  cases hv : (g.isValidSlide (now - start.time) && !g.isPastBounds) <;>
    cases hl : JSNum.lt g.touchDelta.x (JSNum.fin 0) <;>
    cases hcont : g.continuous <;>
    simp only [afterTouchend, hstart, hns, hv, hl, hcont, slideChanged, if_false, if_true,
      Bool.false_eq_true, reduceCtorEq, moveSlideAtIndex_continuous, moveSlideAtIndex_index] <;>
    (try split_ifs) <;> simp only [moveSlideAtIndex_slideChangedCalls]

/-- C18 (the code at the failing input): a tap on the four-slide scenario
(`touchstart`, `touchend`, then the `afterTouchend` timer, no move sample)
leaves the index where it was and still calls `slideChanged()` once. -/
theorem tap_invokes_slideChanged :
    (((scenario4.touchstart ⟨⟨10, 10⟩, [], none⟩ 0).touchend).fireTimer 1 50).index =
      scenario4.index ∧
    scenario4.slideChangedCalls = 0 ∧
    (((scenario4.touchstart ⟨⟨10, 10⟩, [], none⟩ 0).touchend).fireTimer 1 50).slideChangedCalls
      = 1 := by
  have h : ((scenario4.touchstart ⟨⟨10, 10⟩, [], none⟩ 0).touchend).fireTimer 1 50 =
      (((scenario4.touchstart ⟨⟨10, 10⟩, [], none⟩ 0).touchend).clearTimeout 1).afterTouchend 50 := by
    rfl
  rw [h]
  refine ⟨?_, rfl, ?_⟩
  · rw [afterTouchend_index _ 50 ⟨10, 10, 0⟩ rfl (by decide)]
    rw [if_neg]
    · rfl
    · simp [isValidSlide, clearTimeout, touchend, touchstart, scenario4, atRest, resetPending,
        setTimeout, JSNum.abs, JSNum.gt, jsnum_lt_nan]
  · rw [afterTouchend_notifies _ 50 ⟨10, 10, 0⟩ rfl (by decide)]
    rfl

theorem construct_via_initialize (c : Container) (o : Option Options) :
    ∃ g0 : BasicGallery,
      (construct c o).slidePos = (g0.initializeGallery).slidePos ∧
      (construct c o).index = (g0.initializeGallery).index ∧
      (construct c o).continuous = (g0.initializeGallery).continuous ∧
      (construct c o).slides.length = (g0.initializeGallery).slides.length := by
  unfold construct
  lift_lets
  intros
  exact ⟨_, rfl, rfl, rfl, rfl⟩

theorem construct_current_offset (c : Container) (o : Option Options)
    (h0 : 0 ≤ (construct c o).index)
    (h1 : (construct c o).index < ((construct c o).slides.length : Int)) :
    (construct c o).slidePos.get (construct c o).index = some 0 := by
  obtain ⟨hc, -, hk⟩ := construct_spec c o
  have hlen3 : (construct c o).continuous = true → 3 ≤ (construct c o).slides.length := by
    intro hcont
    have h2 : 2 ≤ c.children.length := by
      by_contra hlt
      rw [hc, if_pos (by omega)] at hcont
      exact absurd hcont (by decide)
    rw [← contents_length, hk, hcont]
    by_cases h : c.children.length < 3
    · simp [h]; omega
    · simp [h]; omega
  obtain ⟨g0, e1, e2, e3, e4⟩ := construct_via_initialize c o
  have hi : (g0.initializeGallery).index = g0.index := initializeGallery_index g0
  have hcn : (g0.initializeGallery).continuous = g0.continuous := initializeGallery_continuous g0
  have hl : (g0.initializeGallery).slides.length = g0.slides.length := by
    rw [← contents_length, ← contents_length]
    exact congrArg List.length (initializeGallery_contents g0)
  rw [e2, hi] at h0
  rw [e2, hi, e4, hl] at h1
  rw [e3, hcn, e4, hl] at hlen3
  obtain ⟨-, -, hnc, hcont⟩ := initializeGallery_layout g0
  rw [e1, e2, hi]
  cases hcase : g0.continuous with
  | false =>
    obtain ⟨n, hn⟩ : ∃ n : Nat, g0.index = (n : Int) := ⟨g0.index.toNat, by omega⟩
    have := (hnc hcase n (by omega)).2.1 hn.symm
    rw [hn]; exact this
  | true => exact (hcont hcase (hlen3 hcase)).2.2.1 h0 h1

/-- `parseInt` gives back an integer below `2^53`. -/
theorem parseInt_of_lt (n : Int) (h : n.natAbs < 2 ^ 53) : parseInt n = some n := by
  unfold parseInt toDouble
  rw [if_pos h]
  simp only []
  rw [if_pos (lt_trans h (by norm_num))]
  rw [Int.sign_mul_natAbs]

/-- From `10^21` on the string form is in exponent notation, of which
`parseInt` reads the first digit; above `2^53` not every integer is a
double. -/
theorem parseInt_large :
    parseInt (10 ^ 21) = some 1 ∧ parseInt (10 ^ 23) = some 1 ∧
    parseInt (-(2 ^ 70)) = some (-1) ∧ parseInt (10 ^ 21 - 1) = some 1 ∧
    parseInt (2 ^ 53 + 1) = some (2 ^ 53) := by
  decide

/-- A `startSlide` below `2^53` becomes the index as it is. -/
theorem construct_index_of_lt (c : Container) (o : Option Options)
    (h : ((o.getD ⟨none, none, none⟩).startSlide.getD 0).natAbs < 2 ^ 53) :
    (construct c o).index = (o.getD ⟨none, none, none⟩).startSlide.getD 0 := by
  obtain ⟨-, hi, -⟩ := construct_spec c o
  rw [hi, parseInt_of_lt _ h]
  rfl

/-- With `startSlide: 1e21` the index is 1, the digit that `parseInt` reads
from `1e+21`, and the slides are stacked around slide 1. -/
theorem construct_exponent_startSlide :
    (construct three (some ⟨some (10 ^ 21), some false, none⟩)).index = 1 ∧
    (construct three (some ⟨some (10 ^ 21), some false, none⟩)).slidePos.elems =
      [some (-300), some 0, some 300] := by
  decide

/-- C13 (the code at the failing input): three slides of width 300,
`startSlide: 5`, not continuous.  The constructor stores 5 as the index
without wrapping it: after construction the index is outside `[0, 3)`,
`slidePos[index]` is undefined and every slide is at `-300`, none at 0. -/
theorem construct_startSlide_not_wrapped :
    (construct three (some ⟨some 5, some false, none⟩)).slides.length = 3 ∧
    (construct three (some ⟨some 5, some false, none⟩)).index = 5 ∧
    (construct three (some ⟨some 5, some false, none⟩)).slidePos.get 5 = none ∧
    (construct three (some ⟨some 5, some false, none⟩)).slidePos.elems =
      [some (-300), some (-300), some (-300)] := by
  decide

end BasicGallery

namespace BasicGallery

/-! ### The transition path of `slide` -/


/-- With no reset pending and no pre-positioning needed, `slide` to another
index runs the transition at once: it is `slideFinish` at a destination
congruent to the requested one, after at most one zero-time move. -/
theorem slide_direct (g : BasicGallery) (d : Int) (sp : Option Int) (iw : Bool)
    (hne : g.index ≠ d) (hp : g.resetPending = false)
    (hpp : g.needsPrePosition d iw = false) :
    ∃ (g3 : BasicGallery) (dest f : Int),
      g.slide d sp iw = g3.slideFinish dest f (g.effectiveSpeed sp) ∧
      SameButLayout g g3 ∧
      (dest = d ∨ dest = d + (g.slides.length : Int) ∨ dest = d - (g.slides.length : Int)) ∧
      (f = 1 ∨ f = -1) ∧
      (g.continuous = false →
        g3 = g ∧ dest = d ∧ f = (if g.index - d < 0 then -1 else 1)) := by
  have hx : g.index - d ≠ 0 := by omega
  have hnat : JSNum.lt (JSNum.div (JSNum.fin |((g.index - d : Int) : ℚ)|)
      (JSNum.fin ((g.index - d : Int) : ℚ))) (JSNum.fin 0) = decide (g.index - d < 0) :=
    natural_direction_lt (g.index - d) hx
  unfold slide
  lift_lets
  intro g1 needsDelay1 prePosition g2 speed natural_direction wrapAware direction
    directionFactor dest g3
  have hg1 : g1 = g := by simp only [g1, hp]
  have hnd : needsDelay1 = false := hp
  have hpre : prePosition = false := by
    simp only [prePosition, hg1]; exact hpp
  have hg2 : g2 = g := by simp only [g2, hpre]; simpa using hg1
  have hspeed : speed = g.effectiveSpeed sp := by simp only [speed, hg2]
  have hs3 : SameButLayout g g3 := by
    simp only [g3, hg2]
    split_ifs
    · exact moveSlideAtIndex_same _ _ _ _
    · exact moveSlideAtIndex_same _ _ _ _
    · exact SameButLayout.same g
    · exact SameButLayout.same g
  have hf : directionFactor = 1 ∨ directionFactor = -1 := by
    simp only [directionFactor]; split_ifs <;> simp
  have hdest : dest = d ∨ dest = d + (g.slides.length : Int) ∨
      dest = d - (g.slides.length : Int) := by
    simp only [dest, hg2]
    split_ifs
    · rcases hf with h | h
      · right; left; rw [h]; ring
      · right; right; rw [h]; ring
    · left; rfl
  refine ⟨g3, dest, directionFactor, ?_, hs3, hdest, hf, ?_⟩
  · rw [if_neg hne]
    simp only [hp, Bool.false_and, Bool.false_eq_true, if_false, hnd, hpre, Bool.or_self, hspeed]
  · intro hc
    have hw : wrapAware = false := by simp only [wrapAware, hg2, hc, Bool.false_and]
    refine ⟨?_, ?_, ?_⟩
    · simp only [g3, hw, hg2, hc]; simp
    · simp only [dest, hw]; simp
    · simp only [directionFactor, direction, hw, natural_direction, hg2, hnat]
      by_cases h : g.index - d < 0 <;> simp [h]

end BasicGallery

namespace BasicGallery

/-! ### The index stays in range -/


theorem inRange_of_index {g g1 : BasicGallery} (hi : g1.index = g.index)
    (hk : g1.contents = g.contents) (h : InRange g) : InRange g1 := by
  have hl : g1.slides.length = g.slides.length := by
    rw [← contents_length, ← contents_length, hk]
  exact ⟨by rw [hi]; exact h.1, by rw [hi, hl]; exact h.2⟩

theorem inRange_of_wrap {g g1 : BasicGallery} (x : Int) (hi : g1.index = g.wrapIndex x)
    (hk : g1.contents = g.contents) (h : InRange g) : InRange g1 := by
  have hl : g1.slides.length = g.slides.length := by
    rw [← contents_length, ← contents_length, hk]
  have hN : 1 ≤ g.slides.length := by have := h.1; have := h.2; omega
  obtain ⟨a, b⟩ := wrapIndex_bounds g x hN
  exact ⟨by rw [hi]; exact a, by rw [hi, hl]; exact b⟩

@[simp] theorem translate_index (g : BasicGallery) (i : Int) (d : JSNum) (sp : Int) :
    (g.translate i d sp).index = g.index := by
  obtain ⟨cs, -, h⟩ := translate_eq g i d sp
  rw [h]

@[simp] theorem resetSlide_index (g : BasicGallery) (i : Int) (off : ℚ) (delay : Option Int) :
    (g.resetSlide i off delay).index = g.index := by
  unfold resetSlide
  simp only
  split_ifs <;> simp [setTimeout, clearTimeout]

@[simp] theorem seedLoop_index (g : BasicGallery) (top : Int) (dist : ℚ) (k : Nat) :
    (g.seedLoop top dist k).index = g.index :=
  (seedLoop_spec top dist k g).1.index

theorem slideFinish_index (g : BasicGallery) (dest f speed : Int) :
    (g.slideFinish dest f speed).index = g.wrapIndex dest := by
  unfold slideFinish
  lift_lets
  intro diff g4 dest1 g5 g6 g7 g8
  have h4 : g4.wrapIndex dest = g.wrapIndex dest :=
    wrapIndex_congr (seedLoop_spec _ _ diff g).1.len dest
  show dest1 = _
  exact h4

theorem slide_inRange (g : BasicGallery) (d : Int) (sp : Option Int) (iw : Bool)
    (h : InRange g) : InRange (g.slide d sp iw) := by
  have hk := slide_contents g d sp iw
  by_cases hne : g.index = d
  · have : g.slide d sp iw = g := by unfold slide; rw [if_pos hne]
    rw [this]; exact h
  · cases hp : g.resetPending with
    | false =>
      by_cases hpp : g.needsPrePosition d iw = false
      · obtain ⟨g3, dest, f, hs, s3, hd, -, -⟩ := slide_direct g d sp iw hne hp hpp
        refine inRange_of_wrap dest ?_ hk h
        rw [hs, slideFinish_index, wrapIndex_congr s3.len]
      · refine inRange_of_index ?_ hk h
        have hpp2 : g.needsPrePosition d iw = true := by
          cases hq : g.needsPrePosition d iw
          · exact absurd hq hpp
          · rfl
        unfold slide
        lift_lets
        intro g1 needsDelay1 prePosition g2 speed natural_direction wrapAware direction
          directionFactor dest g3
        have hg1 : g1 = g := by simp only [g1, hp]
        have hpre : prePosition = true := by
          simp only [prePosition, hg1]; exact hpp2
        have hg2 : g2.index = g.index := by
          simp only [g2, hpre, if_true, moveSlideAtIndex_index, hg1]
        rw [if_neg hne]
        simp only [hp, Bool.false_and, Bool.false_eq_true, if_false, hpre, Bool.or_true, if_true]
        exact hg2
    | true =>
      refine inRange_of_index ?_ hk h
      unfold slide
      lift_lets
      intro g1 needsDelay1 prePosition g2 speed natural_direction wrapAware direction
        directionFactor dest g3
      have hg1 : g1.index = g.index := by
        simp only [g1, hp]; split <;> simp
      have hg2 : g2.index = g.index := by
        simp only [g2]; split_ifs <;> simp [hg1]
      have hnd : needsDelay1 = true := hp
      rw [if_neg hne]
      split_ifs with ha hb
      · rfl
      · exact hg2
      · exact absurd (by rw [hnd]; rfl) hb


theorem touchstart_index (g : BasicGallery) (ev : TouchEvent) (now : Int) :
    (g.touchstart ev now).index = g.index := by
  unfold touchstart
  simp only
  split <;> simp

theorem touchmove_index (g : BasicGallery) (ev : TouchEvent) :
    (g.touchmove ev).index = g.index := by
  unfold touchmove
  split_ifs
  · rfl
  · rfl
  · cases h : g.touchStartData with
    | none => rfl
    | some start =>
      simp only
      cases hs : g.isScrolling <;> simp only <;> split_ifs <;> simp

theorem touchend_index (g : BasicGallery) : g.touchend.index = g.index := by
  unfold touchend; split_ifs <;> simp [setTimeout]

theorem resize_index (g : BasicGallery) : g.resize.index = g.index := by
  unfold resize; split_ifs <;> simp [setTimeout]

theorem afterTouchend_inRange (g : BasicGallery) (now : Int) (h : InRange g) :
    InRange (g.afterTouchend now) := by
  have hk := afterTouchend_contents g now
  cases hst : g.touchStartData with
  | none =>
    have : g.afterTouchend now = g := by unfold afterTouchend; rw [hst]
    rw [this]; exact h
  | some start =>
    by_cases hs : g.isScrolling = some true
    · rw [afterTouchend_locked g now hs]; exact h
    · have hi := afterTouchend_index g now start hst hs
      split_ifs at hi
      · exact inRange_of_wrap _ hi hk h
      · exact inRange_of_wrap _ hi hk h
      · exact inRange_of_index hi hk h

theorem runCallback_inRange (g : BasicGallery) (now : Int) (cb : Callback) (h : InRange g) :
    InRange (g.runCallback now cb) := by
  cases cb with
  | slide d sp iw => exact slide_inRange g d sp iw h
  | slideChanged => exact inRange_of_index rfl rfl h
  | resetSlide i off => exact inRange_of_index (resetSlide_index g i off none) (by simp [runCallback]) h
  | afterTouchend => exact afterTouchend_inRange g now h
  | initializeGallery =>
    exact inRange_of_index (initializeGallery_index g) (initializeGallery_contents g) h

/-- C17: the predicate "the current index is in `[0, N)`" is preserved by every
operation: `initialize`, `prev`, `next`, `slide(d)` for any integer `d`,
`resetSlide`, `moveSlideAtIndex`, `translate`, `slideChanged`, `touchstart`,
`touchmove`, `touchend`, `afterTouchend`, `resize`, and the expiry of any
pending timer. -/
theorem index_in_range_preserved (g : BasicGallery) (op : Op) (h : InRange g) :
    InRange (g.step op) := by
  cases op with
  | initializeGallery =>
    exact inRange_of_index (initializeGallery_index g) (initializeGallery_contents g) h
  | prev =>
    show InRange g.prev
    unfold prev
    split_ifs
    · exact slide_inRange g _ _ _ h
    · exact h
  | next =>
    show InRange g.next
    unfold next
    split_ifs
    · exact slide_inRange g _ _ _ h
    · exact h
  | slide d sp iw => exact slide_inRange g d sp iw h
  | resetSlide i off delay =>
    exact inRange_of_index (resetSlide_index g i off delay) (resetSlide_contents g i off delay) h
  | moveSlideAtIndex i d sp =>
    exact inRange_of_index (moveSlideAtIndex_index g i d sp) (moveSlideAtIndex_contents g i d sp) h
  | translate i d sp =>
    exact inRange_of_index (translate_index g i d sp) (translate_contents g i d sp) h
  | slideChanged => exact inRange_of_index rfl rfl h
  | touchstart ev now =>
    exact inRange_of_index (touchstart_index g ev now) (touchstart_contents g ev now) h
  | touchmove ev =>
    exact inRange_of_index (touchmove_index g ev) (touchmove_contents g ev) h
  | touchend => exact inRange_of_index (touchend_index g) (touchend_contents g) h
  | afterTouchend now => exact afterTouchend_inRange g now h
  | resize => exact inRange_of_index (resize_index g) (resize_contents g) h
  | fireTimer hd now =>
    show InRange (g.fireTimer hd now)
    unfold fireTimer
    split
    · exact h
    · exact runCallback_inRange _ now _ (inRange_of_index rfl rfl h)

theorem index_in_range_preserved_witness :
    InRange scenario4 ∧ InRange (scenario4.step (Op.slide (-7) none false)) :=
  ⟨⟨by decide, by decide⟩,
   index_in_range_preserved scenario4 (Op.slide (-7) none false) ⟨by decide, by decide⟩⟩

end BasicGallery

namespace BasicGallery

/-! ### `next()` and `prev()` -/


theorem slide_direct_index (g : BasicGallery) (d : Int) (sp : Option Int) (iw : Bool)
    (hN : 1 ≤ g.slides.length) (hne : g.index ≠ d) (hp : g.resetPending = false)
    (hpp : g.needsPrePosition d iw = false) :
    (g.slide d sp iw).index = g.wrapIndex d := by
  obtain ⟨g3, dest, f, hs, s3, hd, -, -⟩ := slide_direct g d sp iw hne hp hpp
  rw [hs, slideFinish_index, wrapIndex_congr s3.len]
  rcases hd with h | h | h
  · rw [h]
  · rw [h]
    have := wrapIndex_add_mul g d 1 hN
    rwa [one_mul] at this
  · rw [h]
    have := wrapIndex_add_mul g d (-1) hN
    rw [neg_one_mul, ← sub_eq_add_neg] at this
    exact this

theorem needsPrePosition_false (g : BasicGallery) (d : Int) :
    g.needsPrePosition d false = false := by
  simp [needsPrePosition]

/-- C20: with no reset pending and the index in `[0, N)`: in continuous mode
`next()` sets the index to `wrapIndex(index+1)` and `prev()` to
`wrapIndex(index-1)`, so from `N-1` `next()` goes to 0 and from 0 `prev()`
goes to `N-1`; in non-continuous mode, away from the boundary, they set it
to `index+1` and `index-1`. -/
theorem next_prev_index (g : BasicGallery) (hp : g.resetPending = false) (h : InRange g) :
    (g.continuous = true →
      g.next.index = g.wrapIndex (g.index + 1) ∧
      g.prev.index = g.wrapIndex (g.index - 1) ∧
      (g.index = (g.slides.length : Int) - 1 → g.next.index = 0) ∧
      (g.index = 0 → g.prev.index = (g.slides.length : Int) - 1)) ∧
    (g.continuous = false →
      (g.index < (g.slides.length : Int) - 1 → g.next.index = g.index + 1) ∧
      (0 < g.index → g.prev.index = g.index - 1)) := by
  have hN : 1 ≤ g.slides.length := by have := h.1; have := h.2; omega
  have hsn : (g.slide (g.index + 1) none false).index = g.wrapIndex (g.index + 1) :=
    slide_direct_index g _ none false hN (by omega) hp (needsPrePosition_false g _)
  have hsp : (g.slide (g.index - 1) none false).index = g.wrapIndex (g.index - 1) :=
    slide_direct_index g _ none false hN (by omega) hp (needsPrePosition_false g _)
  constructor
  · intro hc
    have en : g.next = g.slide (g.index + 1) none false := by
      unfold next; simp [hc]
    have ep : g.prev = g.slide (g.index - 1) none false := by
      unfold prev; simp [hc]
    rw [en, ep]
    refine ⟨hsn, hsp, fun hl => ?_, fun hz => ?_⟩
    · rw [hsn, hl, sub_add_cancel, wrapIndex_eq_emod g _ hN]
      exact Int.emod_self
    · rw [hsp, hz, wrapIndex_eq_emod g _ hN]
      have e : (0 - 1 : Int) = ((g.slides.length : Int) - 1) + (-1) * (g.slides.length : Int) := by
        ring
      rw [e, Int.add_mul_emod_self]
      exact Int.emod_eq_of_lt (by omega) (by omega)
  · intro hc
    constructor
    · intro hl
      have en : g.next = g.slide (g.index + 1) none false := by
        unfold next; simp [hc, hl]
      rw [en, hsn]
      exact wrapIndex_of_range g _ (by have := h.1; omega) (by omega)
    · intro hz
      have ep : g.prev = g.slide (g.index - 1) none false := by
        unfold prev; simp [hc, hz]
      rw [ep, hsp]
      exact wrapIndex_of_range g _ (by omega) (by have := h.2; omega)

theorem next_prev_index_witness :
    lastOf4.next.index = 0 ∧ scenario4.prev.index = 3 ∧ linear3.next.index = 1 :=
  ⟨((next_prev_index lastOf4 rfl ⟨by decide, by decide⟩).1 rfl).2.2.1 (by decide),
   ((next_prev_index scenario4 rfl ⟨by decide, by decide⟩).1 rfl).2.2.2 (by decide),
   ((next_prev_index linear3 rfl ⟨by decide, by decide⟩).2 rfl).1 (by decide)⟩

end BasicGallery

namespace BasicGallery

/-! ### Stacking in non-continuous mode -/


theorem slideFinish_linear (g : BasicGallery) (dest f speed : Int)
    (hc : g.continuous = false) :
    (g.slideFinish dest f speed).width = g.width ∧
    (g.slideFinish dest f speed).slides.length = g.slides.length ∧
    (g.slideFinish dest f speed).slidePos =
      ((g.seedLoop (if dest > g.index then dest else g.index) (g.width * f)
          ((g.index - dest).natAbs - 1)).slidePos.set g.index (g.width * f)).set
          (g.wrapIndex dest) 0 := by
  obtain ⟨s4, -, -⟩ := seedLoop_spec (if dest > g.index then dest else g.index) (g.width * f)
          ((g.index - dest).natAbs - 1) g
  unfold slideFinish
  lift_lets
  intro diff g4 dest1 g5 g6 g7 g8
  have s5 : SameButLayout g4 g5 := moveSlideAtIndex_same _ _ _ _
  have s6 : SameButLayout g5 g6 := moveSlideAtIndex_same _ _ _ _
  have s := (s4.andThen s5).andThen s6
  have h7 : g7 = g6 := by
    simp only [g7]
    rw [if_neg]
    rw [s.continuous, hc]; simp
  have hpos6 : g6.slidePos = (g4.slidePos.set g.index (g.width * f)).set (g.wrapIndex dest) 0 := by
    simp only [g6, g5, dest1]
    rw [moveSlideAtIndex_slidePos, moveSlideAtIndex_slidePos, s4.index, s4.width,
      wrapIndex_congr s4.len]
  refine ⟨?_, ?_, ?_⟩
  · show g7.width = _
    rw [h7]; exact s.width
  · show g7.slides.length = _
    rw [h7]; exact s.len
  · show g7.slidePos = _
    rw [h7]; exact hpos6


/-- C16: in non-continuous mode with no reset pending, from a state with the
index in range and three-bucket stacking, `slide(d)` for any `d` in `[0, N)`
(any speed, any `ignoreWrap`) gives three-bucket stacking around the new
index `d`, with the same width and the same slides; the slides strictly
between the old and the new index end one width away in the travel
direction, like the old current slide. -/
theorem slide_preserves_stacking (g : BasicGallery) (d : Int) (sp : Option Int) (iw : Bool)
    (hc : g.continuous = false) (hi : InRange g) (hst : Stacked g)
    (hp : g.resetPending = false) (hd0 : 0 ≤ d) (hd1 : d < (g.slides.length : Int)) :
    Stacked (g.slide d sp iw) ∧ (g.slide d sp iw).index = d ∧
      (g.slide d sp iw).width = g.width ∧
      (g.slide d sp iw).slides.length = g.slides.length := by
  by_cases hne : g.index = d
  · have : g.slide d sp iw = g := by unfold slide; rw [if_pos hne]
    rw [this]; exact ⟨hst, hne, rfl, rfl⟩
  have hN : 1 ≤ g.slides.length := by have := hi.1; have := hi.2; omega
  have hpp : g.needsPrePosition d iw = false := by simp [needsPrePosition, hc]
  obtain ⟨g3, dest, f, hs, -, -, -, hlin⟩ := slide_direct g d sp iw hne hp hpp
  obtain ⟨h3, hdest, hf⟩ := hlin hc
  subst h3; subst hdest
  obtain ⟨hw, hlen, hpos⟩ := slideFinish_linear g3 dest f (g3.effectiveSpeed sp) hc
  obtain ⟨-, hin, hout⟩ := seedLoop_spec (if dest > g3.index then dest else g3.index)
    (g3.width * f) ((g3.index - dest).natAbs - 1) g3
  have hidx : (g3.slide dest sp iw).index = dest := by
    rw [hs, slideFinish_index]; exact wrapIndex_of_range g3 dest hd0 hd1
  have hwd : g3.wrapIndex dest = dest := wrapIndex_of_range g3 dest hd0 hd1
  refine ⟨?_, hidx, by rw [hs]; exact hw, by rw [hs]; exact hlen⟩
  intro i hilt
  rw [hs, hlen] at hilt
  obtain ⟨b1, b2, b3⟩ := hst i hilt
  obtain ⟨hi0, hi1⟩ := hi
  rcases lt_or_gt_of_ne hne with hfw | hbw
  · -- forward: the index grows, slides up to the destination go to `-width`
    have hfv : f = -1 := by rw [hf, if_pos (by omega)]
    have htop : (if dest > g3.index then dest else g3.index) = dest := if_pos hfw
    obtain ⟨k, hk⟩ : ∃ k : Nat, (k : Int) = dest - g3.index - 1 :=
      ⟨(dest - g3.index - 1).toNat, Int.toNat_of_nonneg (by omega)⟩
    have hdiff : ((g3.index - dest).natAbs - 1 : Nat) = k := by omega
    rw [htop, hdiff] at hin hout hpos
    clear hdiff htop
    rw [hidx, hs, hw, hpos, hwd, JSArray.get_set, JSArray.get_set]
    have hseed : ∀ j : Nat, g3.index < (j : Int) → (j : Int) < dest →
        (g3.seedLoop dest (g3.width * f) k).slidePos.get j = some (g3.width * f) := by
      intro j hj1 hj2
      obtain ⟨m, hm⟩ : ∃ m : Nat, (m : Int) = dest - j - 1 :=
        ⟨(dest - j - 1).toNat, Int.toNat_of_nonneg (by omega)⟩
      have := hin m (by omega)
      have e : dest - (m : Int) - 1 = j := by omega
      rw [e, wrapIndex_of_range g3 (j : Int) (by omega) (by omega)] at this
      exact this
    have hkeep : ∀ j : Nat, ((j : Int) ≤ g3.index ∨ dest ≤ (j : Int)) → j < g3.slides.length →
        (g3.seedLoop dest (g3.width * f) k).slidePos.get j = g3.slidePos.get j := by
      intro j hj hjl
      apply hout
      intro m hm
      rw [wrapIndex_of_range g3 (dest - (m : Int) - 1) (by omega) (by omega)]
      omega
    have hwf : g3.width * ((f : Int) : ℚ) = -g3.width := by rw [hfv]; simp
    refine ⟨fun h1 => ?_, fun h1 => ?_, fun h1 => ?_⟩
    · rw [if_neg (by omega)]
      by_cases hcur : (i : Int) = g3.index
      · rw [if_pos hcur, hwf]
      · rw [if_neg hcur]
        by_cases hbt : g3.index < (i : Int)
        · rw [hseed i hbt h1, hwf]
        · rw [hkeep i (Or.inl (by omega)) hilt]
          exact b1 (by omega)
    · rw [if_pos h1]
    · rw [if_neg (by omega), if_neg (by omega), hkeep i (Or.inr (by omega)) hilt]
      exact b3 (by omega)
  · -- backward: the index shrinks, slides down to the destination go to `+width`
    have hfv : f = 1 := by rw [hf, if_neg (by omega)]
    have htop : (if dest > g3.index then dest else g3.index) = g3.index :=
      if_neg (by omega)
    obtain ⟨k, hk⟩ : ∃ k : Nat, (k : Int) = g3.index - dest - 1 :=
      ⟨(g3.index - dest - 1).toNat, Int.toNat_of_nonneg (by omega)⟩
    have hdiff : ((g3.index - dest).natAbs - 1 : Nat) = k := by omega
    rw [htop, hdiff] at hin hout hpos
    clear hdiff htop
    rw [hidx, hs, hw, hpos, hwd, JSArray.get_set, JSArray.get_set]
    have hseed : ∀ j : Nat, dest < (j : Int) → (j : Int) < g3.index →
        (g3.seedLoop g3.index (g3.width * f) k).slidePos.get j = some (g3.width * f) := by
      intro j hj1 hj2
      obtain ⟨m, hm⟩ : ∃ m : Nat, (m : Int) = g3.index - j - 1 :=
        ⟨(g3.index - j - 1).toNat, Int.toNat_of_nonneg (by omega)⟩
      have := hin m (by omega)
      have e : g3.index - (m : Int) - 1 = j := by omega
      rw [e, wrapIndex_of_range g3 (j : Int) (by omega) (by omega)] at this
      exact this
    have hkeep : ∀ j : Nat, ((j : Int) ≤ dest ∨ g3.index ≤ (j : Int)) → j < g3.slides.length →
        (g3.seedLoop g3.index (g3.width * f) k).slidePos.get j = g3.slidePos.get j := by
      intro j hj hjl
      apply hout
      intro m hm
      rw [wrapIndex_of_range g3 (g3.index - (m : Int) - 1) (by omega) (by omega)]
      omega
    have hwf : g3.width * ((f : Int) : ℚ) = g3.width := by rw [hfv]; simp
    refine ⟨fun h1 => ?_, fun h1 => ?_, fun h1 => ?_⟩
    · rw [if_neg (by omega), if_neg (by omega), hkeep i (Or.inl (by omega)) hilt]
      exact b1 (by omega)
    · rw [if_pos h1]
    · rw [if_neg (by omega)]
      by_cases hcur : (i : Int) = g3.index
      · rw [if_pos hcur, hwf]
      · rw [if_neg hcur]
        by_cases hbt : (i : Int) < g3.index
        · rw [hseed i h1 hbt, hwf]
        · rw [hkeep i (Or.inr (by omega)) hilt]
          exact b3 (by omega)


theorem linear3_stacked : Stacked linear3 := by
  intro i hi
  have h3 : i < 3 := hi
  interval_cases i <;> refine ⟨fun h => ?_, fun h => ?_, fun h => ?_⟩ <;>
    first
      | rfl
      | exact absurd h (by decide)

theorem slide_preserves_stacking_witness :
    (linear3.slide 2 none false).index = 2 ∧
    (linear3.slide 2 none false).slidePos.get 1 = some (-300) := by
  obtain ⟨hs, hi, hw, hl⟩ := slide_preserves_stacking linear3 2 none false rfl
    ⟨by decide, by decide⟩ linear3_stacked rfl (by decide) (by decide)
  refine ⟨hi, ?_⟩
  have h1 := (hs 1 (by rw [hl]; decide)).1 (by rw [hi]; decide)
  rw [hw] at h1
  exact h1

end BasicGallery

namespace BasicGallery

/-! ### The wrap adjustment of `slide` -/


/-- What `slide` does when the index says backward and the offset says
forward: the destination goes down by `N`. -/
theorem slide_forward_below (g : BasicGallery) (d : Int) (sp : Option Int)
    (hc : g.continuous = true) (hp : g.resetPending = false) (hlt : d < g.index)
    (hb : JSNum.lt (JSNum.div
      (JSNum.neg (JSNum.ofOption (g.slidePos.get (g.wrapIndex d)))) (JSNum.fin g.width))
      (JSNum.fin 0) = true) :
    g.slide d sp false =
      g.slideFinish (d - (g.slides.length : Int)) (-1) (g.effectiveSpeed sp) := by
  have hne : ¬ g.index = d := by omega
  have hx : g.index - d ≠ 0 := by omega
  have hnat : JSNum.lt (JSNum.div (JSNum.fin |(g.index : ℚ) - (d : ℚ)|)
      (JSNum.fin ((g.index : ℚ) - (d : ℚ)))) (JSNum.fin 0) = decide (g.index - d < 0) := by
    rw [← Int.cast_sub]; exact natural_direction_lt (g.index - d) hx
  have hneg : ¬ g.index - d < 0 := by omega
  have e : d - (g.slides.length : Int) = -(g.slides.length : Int) + d := by ring
  rw [e]
  unfold slide
  simp [hne, hp, hc, hb, hnat, hneg]

/-- What `slide` does when the index says forward and the offset says
backward: the destination goes up by `N`. -/
theorem slide_backward_above (g : BasicGallery) (d : Int) (sp : Option Int)
    (hc : g.continuous = true) (hp : g.resetPending = false) (hgt : g.index < d)
    (hb : JSNum.lt (JSNum.div
      (JSNum.neg (JSNum.ofOption (g.slidePos.get (g.wrapIndex d)))) (JSNum.fin g.width))
      (JSNum.fin 0) = false) :
    g.slide d sp false =
      g.slideFinish (d + (g.slides.length : Int)) 1 (g.effectiveSpeed sp) := by
  have hne : ¬ g.index = d := by omega
  have hx : g.index - d ≠ 0 := by omega
  have hnat : JSNum.lt (JSNum.div (JSNum.fin |(g.index : ℚ) - (d : ℚ)|)
      (JSNum.fin ((g.index : ℚ) - (d : ℚ)))) (JSNum.fin 0) = decide (g.index - d < 0) := by
    rw [← Int.cast_sub]; exact natural_direction_lt (g.index - d) hx
  have hneg : g.index - d < 0 := by omega
  have e : d + (g.slides.length : Int) = (g.slides.length : Int) + d := by ring
  rw [e]
  unfold slide
  simp [hne, hp, hc, hb, hnat, hneg]

/-- C15 (the code at the failing inputs): four slides, continuous, width 300.
At index 3, `slide(0)` (forward by the offset of slide 0, destination below
the index) runs the transition to destination `0 - 4`, not `0 + 4`, and
seeds 6 positions; at index 0, `slide(3)` (backward by the offset of slide 3,
destination above the index) runs it to `3 + 4`, not `3 - 4`, and seeds 6
positions. -/
theorem slide_adjusts_opposite_to_comment :
    lastOf4.slide 0 none false = lastOf4.slideFinish (0 - 4) (-1) 300 ∧
    (lastOf4.index - (0 - 4)).natAbs - 1 = 6 ∧
    scenario4.slide 3 none false = scenario4.slideFinish (3 + 4) 1 300 ∧
    (scenario4.index - (3 + 4)).natAbs - 1 = 6 := by
  refine ⟨?_, by decide, ?_, by decide⟩
  · refine slide_forward_below lastOf4 0 none rfl rfl (by decide) ?_
    have h0 : lastOf4.wrapIndex 0 = 0 := by decide
    rw [h0]
    show JSNum.lt (JSNum.div (JSNum.neg (JSNum.fin 300)) (JSNum.fin 300)) (JSNum.fin 0) = true
    simp [JSNum.neg, JSNum.div, JSNum.lt]
  · refine slide_backward_above scenario4 3 none rfl rfl (by decide) ?_
    have h0 : scenario4.wrapIndex 3 = 3 := by decide
    rw [h0]
    show JSNum.lt (JSNum.div (JSNum.neg (JSNum.fin (-300))) (JSNum.fin 300)) (JSNum.fin 0) = false
    simp [JSNum.neg, JSNum.div, JSNum.lt]

end BasicGallery

namespace BasicGallery

/-! ### The deferred `slide` and its single retry -/


theorem needsPrePosition_congr {g g1 : BasicGallery} (d : Int) (iw : Bool)
    (h1 : g1.continuous = g.continuous) (h2 : g1.slidePos = g.slidePos)
    (h3 : g1.slides.length = g.slides.length) :
    g1.needsPrePosition d iw = g.needsPrePosition d iw := by
  unfold needsPrePosition
  rw [h1, h2, h3]

/-- Once the pre-positioning step has run, its test is false. -/
theorem needsPrePosition_prePosition (g : BasicGallery) (d : Int) (iw : Bool)
    (hw : 0 ≤ g.width) (hcN : g.continuous = true → 2 ≤ g.slides.length) :
    (g.prePosition d iw).needsPrePosition d iw = false := by
  unfold prePosition
  cases hn : g.needsPrePosition d iw with
  | false => simpa using hn
  | true =>
    simp only [if_true]
    have hc : g.continuous = true := by
      unfold needsPrePosition at hn
      cases hcc : g.continuous
      · rw [hcc] at hn; simp at hn
      · rfl
    have h2 := hcN hc
    unfold needsPrePosition
    rw [moveSlideAtIndex_slidePos, moveSlideAtIndex_continuous, moveSlideAtIndex_slidesLength,
      JSArray.get_set, JSArray.get_set]
    by_cases hd : d = 0
    · subst hd
      have hl : ¬ ((0 : Int) = (g.slides.length : Int) - 1) := by omega
      have hnw : ¬ (0 < -g.width) := by linarith
      simp [JSNum.ofOption, JSNum.gt, JSNum.lt, hl, hnw]
    · have hnw : ¬ (g.width < 0) := by linarith
      simp [hd, JSNum.ofOption, JSNum.lt, hnw]

theorem slide_deferred (g : BasicGallery) (d : Int) (sp : Option Int) (iw : Bool)
    (i : Int) (off : ℚ) (hne : g.index ≠ d) (hp : g.resetPending = true)
    (hb : g.boundResetSlide = some (i, off)) :
    g.slide d sp iw =
      (((g.resetSlide i off none).prePosition d iw).setTimeout (Callback.slide d sp iw) 10).1 := by
  unfold slide
  lift_lets
  intro g1 needsDelay1 prePos g2 speed natural_direction wrapAware direction
    directionFactor dest g3
  have hg1 : g1 = g.resetSlide i off none := by simp only [g1, hp, hb]
  have hnd : needsDelay1 = true := hp
  have hg2 : g2 = (g.resetSlide i off none).prePosition d iw := by
    simp only [g2, prePos, hg1]
    rfl
  rw [if_neg hne]
  simp only [hp, hb, Option.isNone_some, Bool.and_false, Bool.false_eq_true, if_false, hnd,
    Bool.true_or, if_true, hg2]

theorem resetSlide_no_retry (g : BasicGallery) (i : Int) (off : ℚ) (delay : Option Int) :
    ∀ t ∈ (g.resetSlide i off delay).timers, t ∈ g.timers ∨ isRetry t = false := by
  intro t ht
  unfold resetSlide at ht
  simp only at ht
  split_ifs at ht
  · simp only [setTimeout, List.mem_append, List.mem_singleton] at ht
    rcases ht with h | h
    · exact Or.inl h
    · right; rw [h]; rfl
  · rw [moveSlideAtIndex_timers] at ht
    simp only [clearTimeout] at ht
    exact Or.inl (List.mem_filter.1 ht).1
  · rw [moveSlideAtIndex_timers] at ht
    exact Or.inl ht

theorem slideFinish_no_retry (g : BasicGallery) (dest f speed : Int) :
    ∀ t ∈ (g.slideFinish dest f speed).timers, t ∈ g.timers ∨ isRetry t = false := by
  intro t
  unfold slideFinish
  lift_lets
  intro diff g4 dest1 g5 g6 g7 g8 ht
  have s4 : SameButLayout g g4 := (seedLoop_spec _ _ diff g).1
  have s5 : SameButLayout g4 g5 := moveSlideAtIndex_same _ _ _ _
  have s6 : SameButLayout g5 g6 := moveSlideAtIndex_same _ _ _ _
  have s := (s4.andThen s5).andThen s6
  have h7 : ∀ x ∈ g7.timers, x ∈ g.timers ∨ isRetry x = false := by
    intro x hx
    simp only [g7] at hx
    split_ifs at hx
    · rcases resetSlide_no_retry _ _ _ _ x hx with h | h
      · left; rw [← s.timers]; exact h
      · exact Or.inr h
    · left; rw [← s.timers]; exact hx
  have ht2 : t ∈ g7.timers ++ [⟨(g7.nextHandle : Int) + 1, 10, Callback.slideChanged⟩] := ht
  rcases List.mem_append.1 ht2 with h | h
  · exact h7 t h
  · right; rw [List.mem_singleton.1 h]; rfl

end BasicGallery

namespace BasicGallery


theorem resetSlide_geometry (g : BasicGallery) (i : Int) (off : ℚ) (delay : Option Int) :
    (g.resetSlide i off delay).continuous = g.continuous ∧
    (g.resetSlide i off delay).width = g.width ∧
    (g.resetSlide i off delay).slides.length = g.slides.length := by
  refine ⟨?_, ?_, ?_⟩
  · unfold resetSlide; simp only; split_ifs <;> simp [setTimeout, clearTimeout]
  · unfold resetSlide; simp only; split_ifs <;> simp [setTimeout, clearTimeout]
  · rw [← contents_length, ← contents_length, resetSlide_contents]

theorem prePosition_same (g : BasicGallery) (d : Int) (iw : Bool) :
    SameButLayout g (g.prePosition d iw) := by
  unfold prePosition
  by_cases hq : g.needsPrePosition d iw = true
  · rw [if_pos hq]; exact moveSlideAtIndex_same _ _ _ _
  · rw [if_neg hq]; exact SameButLayout.same g

/-- C19: `slide(d, speed, ignoreWrap)` called with `d` other than the index
while a reset timer is pending (handle `h`, bound reset `(i, off)`):
the call is the fired reset `resetSlide(i, off)`, which writes
`slidePos[i] = off` and removes the pending timer, followed by the
pre-positioning step and by one `setTimeout` of the same call; afterwards no
reset is pending, the index is unchanged and exactly one retry timer has
been added. When that timer expires, with nothing in between, the re-issued
call runs the transition: the index becomes `wrapIndex(d)` and no retry
timer remains that was not pending before the first call. This holds for
every `d`, speed and `ignoreWrap`, for a gallery with at least one slide (two
in continuous mode), a non-negative width and timer handles given out by
`setTimeout`. -/
theorem slide_single_retry (g : BasicGallery) (d : Int) (sp : Option Int) (iw : Bool)
    (i : Int) (off : ℚ) (h : Int) (now : Int)
    (hne : d ≠ g.index) (hts : g.resetSlideTimeout = some h) (hpos : 0 < h)
    (hb : g.boundResetSlide = some (i, off)) (hfresh : HandlesIssued g)
    (hw : 0 ≤ g.width) (hN : 1 ≤ g.slides.length)
    (hcN : g.continuous = true → 2 ≤ g.slides.length) :
    g.slide d sp iw =
      (((g.resetSlide i off none).prePosition d iw).setTimeout (Callback.slide d sp iw) 10).1 ∧
    (g.resetSlide i off none).slidePos = g.slidePos.set i off ∧
    (g.resetSlide i off none).timers = g.timers.filter (fun t => decide (t.handle ≠ h)) ∧
    (g.slide d sp iw).resetPending = false ∧
    (g.slide d sp iw).index = g.index ∧
    (g.slide d sp iw).timers =
      g.timers.filter (fun t => decide (t.handle ≠ h)) ++
        [⟨(g.nextHandle : Int) + 1, 10, Callback.slide d sp iw⟩] ∧
    ((g.slide d sp iw).fireTimer ((g.nextHandle : Int) + 1) now).index = g.wrapIndex d ∧
    (∀ t ∈ ((g.slide d sp iw).fireTimer ((g.nextHandle : Int) + 1) now).timers,
      isRetry t = true → t ∈ g.timers) := by
  have hp : g.resetPending = true := by simp [resetPending, hts, hpos]
  have hne2 : g.index ≠ d := fun e => hne e.symm
  have hdef := slide_deferred g d sp iw i off hne2 hp hb
  obtain ⟨r1, r2, r3, r4, r5, r6⟩ := resetSlide_when_pending g i off none h hts hpos
  obtain ⟨q1, q2, q3⟩ := resetSlide_geometry g i off none
  set gr := g.resetSlide i off none with hgr
  have sP := prePosition_same gr d iw
  set P := gr.prePosition d iw with hP
  set R := g.slide d sp iw with hR
  have hRt : R.timers = g.timers.filter (fun t => decide (t.handle ≠ h)) ++
      [⟨(g.nextHandle : Int) + 1, 10, Callback.slide d sp iw⟩] := by
    rw [hdef]
    show P.timers ++ [⟨(P.nextHandle : Int) + 1, 10, Callback.slide d sp iw⟩] = _
    rw [sP.timers, sP.nextHandle, r1, r2]
  have hRi : R.index = g.index := by
    rw [hdef]; show P.index = _; rw [sP.index, r6]
  have hRp : R.resetPending = false := by
    rw [hdef]
    show P.resetPending = false
    unfold resetPending
    rw [sP.resetSlideTimeout, r3]; rfl
  -- the retry timer expires
  have hff : ∀ x ∈ g.timers.filter (fun t => decide (t.handle ≠ h)),
      x.handle ≤ (g.nextHandle : Int) := fun x hx => hfresh x (List.mem_filter.1 hx).1
  have hfind : R.timers.find? (fun t => decide (t.handle = (g.nextHandle : Int) + 1)) =
      some ⟨(g.nextHandle : Int) + 1, 10, Callback.slide d sp iw⟩ := by
    rw [hRt]; exact find_issued _ g.nextHandle _ [] hff rfl
  have hfire : R.fireTimer ((g.nextHandle : Int) + 1) now =
      (R.clearTimeout ((g.nextHandle : Int) + 1)).slide d sp iw := by
    unfold fireTimer
    rw [hfind]
    rfl
  set R1 := R.clearTimeout ((g.nextHandle : Int) + 1) with hR1
  have hR1i : R1.index = g.index := hRi
  have hR1p : R1.resetPending = false := hRp
  have hR1l : R1.slides.length = g.slides.length := by
    show R.slides.length = _
    rw [hdef]; show P.slides.length = _; rw [sP.len, q3]
  have hR1n : R1.needsPrePosition d iw = false := by
    have e : R1.needsPrePosition d iw = P.needsPrePosition d iw := by
      apply needsPrePosition_congr
      · show R.continuous = _; rw [hdef]; rfl
      · show R.slidePos = _; rw [hdef]; rfl
      · show R.slides.length = _; rw [hdef]; rfl
    rw [e]
    exact needsPrePosition_prePosition gr d iw (by rw [q2]; exact hw)
      (fun hc => by rw [q3]; exact hcN (by rw [← q1]; exact hc))
  have hR1t : ∀ t ∈ R1.timers, t ∈ g.timers := by
    intro t ht
    have ht2 : t ∈ R.timers.filter (fun t => decide (t.handle ≠ (g.nextHandle : Int) + 1)) := ht
    obtain ⟨hm, hh⟩ := List.mem_filter.1 ht2
    rw [hRt] at hm
    rcases List.mem_append.1 hm with h1 | h1
    · exact (List.mem_filter.1 h1).1
    · rw [List.mem_singleton.1 h1] at hh
      simp at hh
  have hne3 : R1.index ≠ d := by rw [hR1i]; exact hne2
  refine ⟨hdef, r5, r1, hRp, hRi, hRt, ?_, ?_⟩
  · rw [hfire, slide_direct_index R1 d sp iw (by rw [hR1l]; exact hN) hne3 hR1p hR1n]
    exact wrapIndex_congr hR1l d
  · intro t ht hret
    rw [hfire] at ht
    obtain ⟨g3, dest, f, hs, s3, -, -, -⟩ := slide_direct R1 d sp iw hne3 hR1p hR1n
    rw [hs] at ht
    rcases slideFinish_no_retry g3 dest f _ t ht with h1 | h1
    · rw [s3.timers] at h1
      exact hR1t t h1
    · rw [h1] at hret
      exact absurd hret (by decide)


theorem midTransition4_handles : HandlesIssued midTransition4 := by
  intro t ht
  have h2 : t = ⟨1, 300, Callback.resetSlide 2 300⟩ ∨ t = ⟨2, 10, Callback.slideChanged⟩ := by
    simpa [midTransition4, atRest] using ht
  rcases h2 with rfl | rfl <;> decide

theorem slide_single_retry_witness :
    (midTransition4.slide 3 none true).resetPending = false ∧
    (midTransition4.slide 3 none true).index = 1 ∧
    ((midTransition4.slide 3 none true).fireTimer 3 0).index = 3 :=
  ⟨(slide_single_retry midTransition4 3 none true 2 300 1 0 (by decide) rfl (by decide) rfl
      midTransition4_handles (by norm_num [midTransition4, atRest]) (by decide)
      (fun _ => by decide)).2.2.2.1,
   (slide_single_retry midTransition4 3 none true 2 300 1 0 (by decide) rfl (by decide) rfl
      midTransition4_handles (by norm_num [midTransition4, atRest]) (by decide)
      (fun _ => by decide)).2.2.2.2.1,
   (slide_single_retry midTransition4 3 none true 2 300 1 0 (by decide) rfl (by decide) rfl
      midTransition4_handles (by norm_num [midTransition4, atRest]) (by decide)
      (fun _ => by decide)).2.2.2.2.2.2.1⟩

end BasicGallery
